import Mathlib

/-!
Shallow embedding of the Video-MIDI Trigger engine
(src/video-midi-trigger.py) and proofs about its specification.

Conventions of the embedding:
* grayscale pixel values are `ℕ` (the source uses uint8 arrays);
* real-valued quantities (mean intensities, thresholds, timestamps,
  velocities) are `ℚ` (the source uses Python floats; all arithmetic
  relevant to the verified properties is exact);
* a region sample (`numpy` 2-D array) is a flattened `List ℕ`; its
  "shape" is its length, which for a fixed ROI `(x, y, w, h)` is the
  constant `h * w`;
* YAML dictionaries become structures of `Option` fields (a missing key
  is `none`); Python exceptions become `Except String` results, and
  exception-with-partial-mutation (the reload path) becomes a function
  returning the post-state together with `Option String`;
* MIDI output is modelled as a list of emitted events instead of calls
  into `rtmidi`.
-/

namespace VMT

/-- Python's builtin `round`: round half to even (banker's rounding),
as used by `int(round(x))` in the source. -/
def pyRound (q : ℚ) : ℤ :=
  let f := ⌊q⌋
  let r := q - (f : ℚ)
  if r < 1/2 then f
  else if 1/2 < r then f + 1
  else if f % 2 = 0 then f else f + 1

/-- Mean of a list of pixel values (`np.mean`); the ROI is never empty
in validated configurations, so the division is well-defined there. -/
def mean (xs : List ℕ) : ℚ := (xs.sum : ℚ) / (xs.length : ℚ)

/-- Pointwise absolute difference of two samples (`cv2.absdiff`). -/
def absdiff (a b : List ℕ) : List ℕ :=
  List.zipWith (fun p q => max p q - min p q) a b

/-- Mean absolute difference between two samples
(`np.mean(cv2.absdiff(a, b))`). -/
def meanAbsDiff (a b : List ℕ) : ℚ := mean (absdiff a b)

/-- Last-binding association-list lookup: Python dict construction by
iterated assignment keeps the LAST value written for a key, so the
snapshot `timing_state[trigger.name] = ...` built in a loop is looked
up here from the right. -/
def lookupLast {α : Type} (l : List (String × α)) (k : String) : Option α :=
  (l.reverse.find? (fun p => p.1 = k)).map (·.2)

/-- A grayscale video frame: dimensions plus a pixel function
(row, column ↦ intensity). -/
structure Frame where
  height : ℕ
  width : ℕ
  pixel : ℕ → ℕ → ℕ

/-- Extract the flattened grayscale ROI `gray_frame[y:y+h, x:x+w]`
(`Trigger._extract_roi_grayscale`). -/
def extractROI (f : Frame) (x y w h : ℕ) : List ℕ :=
  (List.range h).flatMap (fun r => (List.range w).map (fun c => f.pixel (y + r) (x + c)))

/-- MIDI velocity configuration as it appears in the YAML: either a
plain number, or a dict with optional `min` / `max` entries, each a
list `[detected_value, velocity]` (`table` models the dict form; the
length-2 requirement is validated in `Trigger.init`). -/
inductive VelocityConfigValue where
  | num (v : ℚ)
  | table (vmin : Option (List ℚ)) (vmax : Option (List ℚ))
deriving DecidableEq

/-- The `midi:` dictionary of a trigger configuration. Notes are
modelled as already-numeric values (`parse_midi_note` is the identity
on numbers; note-name strings are outside this model). -/
structure MidiConfig where
  note : Option ℚ := none
  velocity : Option VelocityConfigValue := none
  channel : Option ℤ := none
  cc : Option ℤ := none
deriving DecidableEq

/-- The `position:` dictionary (percentages of the frame size). -/
structure PositionConfig where
  x : Option ℚ := none
  y : Option ℚ := none
  width : Option ℚ := none
  height : Option ℚ := none
deriving DecidableEq

/-- One entry of the `triggers:` list in the configuration file. -/
structure TriggerConfig where
  name : Option String := none
  position : Option PositionConfig := none
  colour : Option (List ℤ) := none
  type : Option String := none
  threshold : Option ℚ := none
  min : Option ℚ := none
  max : Option ℚ := none
  midi : Option MidiConfig := none
  device : Option String := none
  debounce : Option ℚ := none
  throttle : Option ℚ := none
deriving DecidableEq

/-- The global defaults extracted from the top level of the
configuration file in `_load_config`. -/
structure GlobalDefaults where
  debounce : ℚ := 0
  throttle : ℚ := 0
  colour : Option (List ℤ) := none
deriving DecidableEq

/-- The whole configuration file. The `source` value is modelled as a
string (non-string sources are outside this model); colour values are
modelled as already-split integer triples in list form. -/
structure ConfigFile where
  source : Option String := none
  device : Option String := none
  mirror : Option Bool := none
  scale : Option ℚ := none
  debounce : Option ℚ := none
  throttle : Option ℚ := none
  colour : Option (List ℤ) := none
  triggers : Option (List TriggerConfig) := none
deriving DecidableEq

/-- Validation of a colour value (`parse_colour` on the list form:
exactly three components, each in 0..255). -/
def parse_colour (colour_value : List ℤ) : Except String (ℤ × ℤ × ℤ) :=
  if colour_value.length ≠ 3 then
    .error "Colour must have 3 values"
  else
    let rgb := (colour_value.getD 0 0, colour_value.getD 1 0, colour_value.getD 2 0)
    if 0 ≤ rgb.1 ∧ rgb.1 ≤ 255 ∧ 0 ≤ rgb.2.1 ∧ rgb.2.1 ≤ 255 ∧ 0 ≤ rgb.2.2 ∧ rgb.2.2 ≤ 255 then
      .ok rgb
    else .error "Colour values must be between 0 and 255"

/-- The velocity configuration stored on a constructed trigger: the
source keeps `velocity_mode` plus the four `velocity_*` attributes,
which are only set for binary trigger types (`none` models the
attributes being absent). -/
inductive VelocitySetting where
  | fixed (velocity_fixed : ℚ)
  | variable (velocity_min_detected velocity_min_value velocity_max_detected velocity_max_value : ℚ)
deriving DecidableEq

/-- A constructed trigger: the configuration-derived attributes and the
mutable runtime state set at the end of `Trigger.__init__`. A region
sample is a flattened `List ℕ`. -/
structure Trigger where
  name : String
  position : PositionConfig
  active_color : ℤ × ℤ × ℤ
  inactive_color : ℤ × ℤ × ℤ
  trigger_type : String
  threshold : Option ℚ
  range_min : Option ℚ
  range_max : Option ℚ
  midi_config : MidiConfig
  device_name : Option String
  debounce : ℚ
  throttle : ℚ
  velocity : Option VelocitySetting
  active : Bool
  last_cc_value : Option ℤ
  range_level : ℚ
  roi_coords : Option (ℕ × ℕ × ℕ × ℕ)
  previous_roi : Option (List ℕ)
  first_roi : Option (List ℕ)
  detected_value : ℚ
  became_invalid_time : Option ℚ
  last_deactivated_time : Option ℚ
deriving DecidableEq

/-- Default colour for visual feedback. -/
def Trigger.DEFAULT_COLOUR : ℤ × ℤ × ℤ := (255, 255, 255)

/-- Validation of one key of the position dictionary (the loop over
x, y, width, height in `Trigger.__init__`). -/
def checkPositionKey (name k : String) (v : Option ℚ) : Except String Unit :=
  match v with
  | none => .error ("Missing " ++ k ++ " in position for trigger " ++ name)
  | some value =>
    if 0 ≤ value ∧ value ≤ 100 then .ok ()
    else .error ("Position " ++ k ++ " must be between 0 and 100 for trigger " ++ name)

/-- The configuration-derived attributes computed by
`Trigger.__init__` before the runtime state is initialised. -/
structure TriggerSettings where
  name : String
  position : PositionConfig
  active_color : ℤ × ℤ × ℤ
  inactive_color : ℤ × ℤ × ℤ
  trigger_type : String
  threshold : Option ℚ
  range_min : Option ℚ
  range_max : Option ℚ
  midi_config : MidiConfig
  device_name : Option String
  debounce : ℚ
  throttle : ℚ
  velocity : Option VelocitySetting
deriving DecidableEq

/-- The validation part of `Trigger.__init__`: every check in source
order, producing the configuration-derived attributes. Error messages
are abbreviated. -/
def Trigger.validate (config : TriggerConfig) (global_defaults : GlobalDefaults) :
    Except String TriggerSettings := do
  let name := config.name.getD "Unnamed Trigger"
  -- required_keys = ['position', 'type', 'midi']
  if config.position.isNone then
    throw ("Missing required configuration key position in trigger " ++ name)
  if config.type.isNone then
    throw ("Missing required configuration key type in trigger " ++ name)
  if config.midi.isNone then
    throw ("Missing required configuration key midi in trigger " ++ name)
  let position := config.position.getD {}
  let colour_value := match config.colour with
    | some c => some c
    | none => global_defaults.colour
  let colour ← match colour_value with
    | some cv => parse_colour cv
    | none => pure Trigger.DEFAULT_COLOUR
  let active_color := colour
  -- inactive colour: int(round(c * 0.5)) componentwise
  let inactive_color := (pyRound ((colour.1 : ℚ) / 2), pyRound ((colour.2.1 : ℚ) / 2),
    pyRound ((colour.2.2 : ℚ) / 2))
  checkPositionKey name "x" position.x
  checkPositionKey name "y" position.y
  checkPositionKey name "width" position.width
  checkPositionKey name "height" position.height
  let trigger_type := config.type.getD ""
  let threshold := config.threshold
  let range_min := config.min
  let range_max := config.max
  let midi_config := config.midi.getD {}
  let device_name := config.device
  let debounce := config.debounce.getD global_defaults.debounce
  let throttle := config.throttle.getD global_defaults.throttle
  if debounce < 0 then
    throw ("Debounce must be at least 0 for trigger " ++ name)
  if throttle < 0 then
    throw ("Throttle must be at least 0 for trigger " ++ name)
  if trigger_type = "brightness" ∨ trigger_type = "darkness" ∨ trigger_type = "motion" ∨
      trigger_type = "difference" then
    match threshold with
    | none => throw ("Missing threshold for trigger " ++ name)
    | some th =>
      if ¬ (0 ≤ th ∧ th ≤ 255) then
        throw ("Threshold must be between 0 and 255 for trigger " ++ name)
  else if trigger_type = "range" ∨ trigger_type = "difference range" then
    match range_min, range_max with
    | some lo, some hi =>
      if ¬ (0 ≤ lo ∧ lo ≤ 255) ∨ ¬ (0 ≤ hi ∧ hi ≤ 255) then
        throw ("Range min and max must be between 0 and 255 for trigger " ++ name)
    | _, _ => throw ("Missing min or max for trigger " ++ name)
  else
    throw ("Unknown trigger type " ++ trigger_type ++ " in trigger " ++ name)
  let channel := midi_config.channel.getD 0
  if ¬ (0 ≤ channel ∧ channel ≤ 15) then
    throw ("MIDI channel must be between 0 and 15 for trigger " ++ name)
  let velocity ←
    if trigger_type = "brightness" ∨ trigger_type = "darkness" ∨ trigger_type = "motion" ∨
        trigger_type = "difference" then
      match midi_config.note with
      | none => throw ("Missing MIDI note for trigger " ++ name)
      | some note => do
        -- parse_midi_note is the identity on already-numeric notes
        if ¬ (0 ≤ note ∧ note ≤ 127) then
          throw ("MIDI note must be between 0 and 127 for trigger " ++ name)
        match midi_config.velocity.getD (.num 100) with
        | .table vmin vmax =>
          match vmin, vmax with
          | some vel_min, some vel_max => do
            if vel_min.length ≠ 2 then
              throw ("Velocity min must be a detected value and velocity pair for trigger " ++ name)
            if vel_max.length ≠ 2 then
              throw ("Velocity max must be a detected value and velocity pair for trigger " ++ name)
            -- detected values are numeric by construction of this model
            if ¬ (0 ≤ vel_min.getD 1 0 ∧ vel_min.getD 1 0 ≤ 127) then
              throw ("Velocity min value must be between 0 and 127 for trigger " ++ name)
            if ¬ (0 ≤ vel_max.getD 1 0 ∧ vel_max.getD 1 0 ≤ 127) then
              throw ("Velocity max value must be between 0 and 127 for trigger " ++ name)
            -- when vel_min[0] >= vel_max[0] the source only prints a warning
            pure (some (VelocitySetting.variable (vel_min.getD 0 0) (vel_min.getD 1 0)
              (vel_max.getD 0 0) (vel_max.getD 1 0)))
          | _, _ => throw ("Variable velocity must have min and max for trigger " ++ name)
        | .num v => do
          if ¬ (0 ≤ v ∧ v ≤ 127) then
            throw ("MIDI velocity must be between 0 and 127 for trigger " ++ name)
          pure (some (VelocitySetting.fixed v))
    else if trigger_type = "range" ∨ trigger_type = "difference range" then
      match midi_config.cc with
      | none => throw ("Missing MIDI CC for trigger " ++ name)
      | some cc => do
        if ¬ (0 ≤ cc ∧ cc ≤ 127) then
          throw ("MIDI CC must be between 0 and 127 for trigger " ++ name)
        pure none
    else pure none
  pure {
    name := name
    position := position
    active_color := active_color
    inactive_color := inactive_color
    trigger_type := trigger_type
    threshold := threshold
    range_min := range_min
    range_max := range_max
    midi_config := midi_config
    device_name := device_name
    debounce := debounce
    throttle := throttle
    velocity := velocity }

/-- Translation of `Trigger.__init__`: run the validation, then build
the trigger with the runtime state initialised exactly as in the
source - inactive, no stored samples, no timing state
(lines 294-304 of the source). -/
def Trigger.init (config : TriggerConfig) (global_defaults : GlobalDefaults) :
    Except String Trigger := do
  let s ← Trigger.validate config global_defaults
  pure {
    name := s.name
    position := s.position
    active_color := s.active_color
    inactive_color := s.inactive_color
    trigger_type := s.trigger_type
    threshold := s.threshold
    range_min := s.range_min
    range_max := s.range_max
    midi_config := s.midi_config
    device_name := s.device_name
    debounce := s.debounce
    throttle := s.throttle
    velocity := s.velocity
    active := false
    last_cc_value := none
    range_level := 0
    roi_coords := none
    previous_roi := none
    first_roi := none
    detected_value := 0
    became_invalid_time := none
    last_deactivated_time := none }

/-- Translation of `Trigger.setup_roi`: percentages to pixel bounds.
Python's `int()` truncates toward zero; the operands here are
non-negative for validated positions, so truncation is `Int.floor`.
The coordinates are stored as naturals, which the bound checks make
faithful. -/
def Trigger.setup_roi (t : Trigger) (frame_height frame_width : ℕ) : Except String Trigger :=
  let x : ℤ := ⌊(frame_width : ℚ) * t.position.x.getD 0 / 100⌋
  let y : ℤ := ⌊(frame_height : ℚ) * t.position.y.getD 0 / 100⌋
  let w : ℤ := ⌊(frame_width : ℚ) * t.position.width.getD 0 / 100⌋
  let h : ℤ := ⌊(frame_height : ℚ) * t.position.height.getD 0 / 100⌋
  if w ≤ 0 ∨ h ≤ 0 then
    .error ("Invalid ROI size for trigger " ++ t.name)
  else
    let w := if x + w > (frame_width : ℤ) then (frame_width : ℤ) - x else w
    let h := if y + h > (frame_height : ℤ) then (frame_height : ℤ) - y else h
    if x < 0 ∨ y < 0 ∨ x ≥ (frame_width : ℤ) ∨ y ≥ (frame_height : ℤ) then
      .error ("Invalid ROI position for trigger " ++ t.name)
    else
      .ok { t with roi_coords := some (x.toNat, y.toNat, w.toNat, h.toNat) }

/-- Result of `Trigger.check_trigger`: a boolean trigger condition for
binary types, an integer output value for continuous types. -/
inductive CheckResult where
  | bool (b : Bool)
  | value (v : ℤ)
deriving DecidableEq

/-- Python truthiness of a check result, as used by
`if triggered:` in `process_frame`. -/
def CheckResult.toBool : CheckResult → Bool
  | .bool b => b
  | .value v => v ≠ 0

/-- Numeric reading of a check result, as stored in `last_cc_value`
and sent in a CC message (Python's `False` equals `0` and `True`
equals `1` under `==` and in arithmetic, so this conflation preserves
the source's comparisons). -/
def CheckResult.toInt : CheckResult → ℤ
  | .bool b => if b then 1 else 0
  | .value v => v

/-- Translation of `Trigger.check_trigger` over a grayscale frame:
returns the updated trigger (detection state only) and the result. -/
def Trigger.check_trigger (t : Trigger) (frame : Frame) : Trigger × CheckResult :=
  match t.roi_coords with
  | none => (t, .bool false)
  | some (x, y, w, h) =>
    if t.trigger_type = "brightness" then
      let avg_brightness := mean (extractROI frame x y w h)
      ({ t with detected_value := avg_brightness },
        .bool (decide (avg_brightness ≥ t.threshold.getD 0)))
    else if t.trigger_type = "darkness" then
      let avg_brightness := mean (extractROI frame x y w h)
      ({ t with detected_value := avg_brightness },
        .bool (decide (avg_brightness ≤ t.threshold.getD 0)))
    else if t.trigger_type = "motion" then
      let current_roi := extractROI frame x y w h
      match t.previous_roi with
      | none => ({ t with previous_roi := some current_roi, detected_value := 0 }, .bool false)
      | some previous_roi =>
        if previous_roi.length ≠ current_roi.length then
          ({ t with previous_roi := some current_roi, detected_value := 0 }, .bool false)
        else
          let avg_diff := meanAbsDiff current_roi previous_roi
          ({ t with previous_roi := some current_roi, detected_value := avg_diff },
            .bool (decide (avg_diff ≥ t.threshold.getD 0)))
    else if t.trigger_type = "difference" then
      let current_roi := extractROI frame x y w h
      match t.first_roi with
      | none => ({ t with first_roi := some current_roi, detected_value := 0 }, .bool false)
      | some first_roi =>
        if first_roi.length ≠ current_roi.length then
          ({ t with first_roi := some current_roi, detected_value := 0 }, .bool false)
        else
          let avg_diff := meanAbsDiff current_roi first_roi
          ({ t with detected_value := avg_diff },
            .bool (decide (avg_diff ≥ t.threshold.getD 0)))
    else if t.trigger_type = "range" then
      let avg_brightness := mean (extractROI frame x y w h)
      let rmin := t.range_min.getD 0
      let rmax := t.range_max.getD 0
      let low := min rmin rmax
      let high := max rmin rmax
      let clipped := min (max avg_brightness low) high
      let range_level := if rmin = rmax then 0 else (clipped - rmin) / (rmax - rmin)
      ({ t with range_level := range_level }, .value (pyRound (range_level * 127)))
    else if t.trigger_type = "difference range" then
      let current_roi := extractROI frame x y w h
      match t.first_roi with
      | none => ({ t with first_roi := some current_roi, range_level := 0 }, .value 0)
      | some first_roi =>
        if first_roi.length ≠ current_roi.length then
          ({ t with first_roi := some current_roi, range_level := 0 }, .value 0)
        else
          let avg_diff := meanAbsDiff current_roi first_roi
          let rmin := t.range_min.getD 0
          let rmax := t.range_max.getD 0
          let low := min rmin rmax
          let high := max rmin rmax
          let clipped := min (max avg_diff low) high
          let range_level := if rmin = rmax then 0 else (clipped - rmin) / (rmax - rmin)
          ({ t with range_level := range_level }, .value (pyRound (range_level * 127)))
    else
      (t, .bool false)

/-- Translation of `Trigger.get_velocity`: fixed value, or clamped
linear interpolation on the last detected value; errors when the
trigger has no velocity configuration (`RuntimeError` in the source). -/
def Trigger.get_velocity (t : Trigger) : Except String ℚ :=
  match t.velocity with
  | none => .error ("get_velocity called on trigger " ++ t.name ++ " without velocity configuration")
  | some (.fixed velocity_fixed) => .ok velocity_fixed
  | some (.variable velocity_min_detected velocity_min_value velocity_max_detected
      velocity_max_value) =>
    let detected := t.detected_value
    if detected ≤ velocity_min_detected then .ok velocity_min_value
    else if detected ≥ velocity_max_detected then .ok velocity_max_value
    else
      let detected_range := velocity_max_detected - velocity_min_detected
      let velocity_range := velocity_max_value - velocity_min_value
      if detected_range = 0 then .ok velocity_min_value
      else
        let r := (detected - velocity_min_detected) / detected_range
        let velocity := velocity_min_value + r * velocity_range
        .ok ((max 0 (min 127 (pyRound velocity)) : ℤ) : ℚ)

/-- An emitted MIDI message: the device it is routed to plus the bytes
handed to `send_note_on` / `send_note_off` / `send_cc`. -/
inductive MidiEvent where
  | noteOn (device : Option String) (note : ℚ) (velocity : ℚ) (channel : ℤ)
  | noteOff (device : Option String) (note : ℚ) (channel : ℤ)
  | cc (device : Option String) (cc : ℤ) (value : ℤ) (channel : ℤ)
deriving DecidableEq

/-- The continuous branch of `process_frame` (trigger types `range`
and `difference range`), applied to the already-checked trigger and
the computed value: emit a CC message only when the value differs from
`last_cc_value`, and always mark the trigger active. -/
def continuousStep (t : Trigger) (value : ℤ) : Trigger × List MidiEvent :=
  if some value ≠ t.last_cc_value then
    ({ t with last_cc_value := some value, active := true },
      [.cc t.device_name (t.midi_config.cc.getD 0) value (t.midi_config.channel.getD 0)])
  else
    ({ t with active := true }, [])

/-- The binary branch of `process_frame` (the debounce / throttle state
machine), applied to the already-checked trigger and the boolean
condition at timestamp `current_time`. The result is the mutated
trigger, the emitted events, and an optional escaping exception.

On both emit paths the source mutates the trigger state first and then
reads `trigger.midi_config['note']` and `trigger.midi_config['channel']`
with bare subscripts. The `note` key is required and written back by
validation, so `.getD 0` is exact there; the `channel` key is only
read (with a default) during validation, never stored, so a missing
`channel` raises `KeyError` after the state change and before any
message is sent - modelled by the error component. Likewise
`get_velocity()` can raise a `RuntimeError` (on a trigger without a
velocity configuration) before the channel lookup is reached. -/
def binaryStep (current_time : ℚ) (triggered : Bool) (t : Trigger) :
    Trigger × List MidiEvent × Option String :=
  if triggered then
    let t := { t with became_invalid_time := none }
    if ¬ t.active then
      let can_activate :=
        if t.throttle > 0 then
          match t.last_deactivated_time with
          | some last_deactivated => decide (current_time - last_deactivated ≥ t.throttle)
          | none => true
        else true
      if can_activate then
        let t := { t with active := true }
        let note := t.midi_config.note.getD 0
        match t.get_velocity with
        | .error e => (t, [], some e)
        | .ok velocity =>
          match t.midi_config.channel with
          | none => (t, [], some "KeyError: channel")
          | some channel =>
            (t, [.noteOn t.device_name note velocity channel], none)
      else (t, [], none)
    else (t, [], none)
  else
    let t := if t.became_invalid_time = none ∧ t.active then
      { t with became_invalid_time := some current_time } else t
    if t.active then
      let should_deactivate :=
        if t.debounce > 0 then
          match t.became_invalid_time with
          | some became_invalid => decide (current_time - became_invalid ≥ t.debounce)
          | none => true
        else true
      if should_deactivate then
        let t := { t with active := false, last_deactivated_time := some current_time }
        let note := t.midi_config.note.getD 0
        match t.midi_config.channel with
        | none => (t, [], some "KeyError: channel")
        | some channel =>
          (t, [.noteOff t.device_name note channel], none)
      else (t, [], none)
    else (t, [], none)

/-- Per-trigger body of `VideoMIDITrigger.process_frame`: dispatch on
the trigger type, then run the continuous or the binary branch on the
check result. The continuous branch cannot raise: its `cc` subscript
is guaranteed by validation for continuous types and `channel` is read
with `.get('channel', 0)` there. -/
def processTrigger (current_time : ℚ) (frame : Frame) (t : Trigger) :
    Trigger × List MidiEvent × Option String :=
  if t.trigger_type = "range" ∨ t.trigger_type = "difference range" then
    let checked := t.check_trigger frame
    let r := continuousStep checked.1 checked.2.toInt
    (r.1, r.2, none)
  else
    let checked := t.check_trigger frame
    binaryStep current_time checked.2.toBool checked.1

/-- Whole-frame processing: the loop over `self.triggers` in
`process_frame`, collecting the emitted events in order; an exception
escaping one trigger's processing aborts the loop, leaving the
remaining triggers unevaluated. -/
def processFrame (current_time : ℚ) (frame : Frame) :
    List Trigger → List Trigger × List MidiEvent × Option String
  | [] => ([], [], none)
  | t :: rest =>
    let r := processTrigger current_time frame t
    match r.2.2 with
    | some e => (r.1 :: rest, r.2.1, some e)
    | none =>
      let rs := processFrame current_time frame rest
      (r.1 :: rs.1, r.2.1 ++ rs.2.1, rs.2.2)

/-- A run of the binary state machine over a list of
(timestamp, condition) inputs, one evaluation per frame; an escaping
exception halts the run (the source process dies). -/
def runBinary (t : Trigger) : List (ℚ × Bool) → Trigger × List MidiEvent × Option String
  | [] => (t, [], none)
  | (time, b) :: rest =>
    let r := binaryStep time b t
    match r.2.2 with
    | some e => (r.1, r.2.1, some e)
    | none =>
      let rs := runBinary r.1 rest
      (rs.1, r.2.1 ++ rs.2.1, rs.2.2)

/-- A run of `check_trigger` alone over a list of frames, keeping the
evolving trigger state (detection state between frames). -/
def runChecks (t : Trigger) : List Frame → Trigger
  | [] => t
  | frame :: rest => runChecks (t.check_trigger frame).1 rest

/-- The engine state carried by `VideoMIDITrigger`: the fields touched
by `_load_config` / `_reload_if_changed` (MIDI controllers and the
capture object are external collaborators and are not modelled). -/
structure AppState where
  config : Option ConfigFile
  config_mtime : Option ℚ
  triggers : List Trigger
  use_camera : Bool
  camera_name : Option String
  video_path : Option String
  mirror : Bool
  scale : ℚ
  frame_height : ℕ
  frame_width : ℕ
deriving DecidableEq

/-- Per-trigger timing snapshot taken by `_reload_if_changed` before
reloading: `became_invalid_time`, `last_deactivated_time`, `active`. -/
structure TimingState where
  became_invalid_time : Option ℚ
  last_deactivated_time : Option ℚ
  active : Bool
deriving DecidableEq

/-- The `timing_state` dict built from the existing triggers (in list
order; a duplicated name keeps the last entry, as Python dict
assignment does — see `lookupLast`). -/
def snapshotTiming (triggers : List Trigger) : List (String × TimingState) :=
  triggers.map (fun t => (t.name, {
    became_invalid_time := t.became_invalid_time
    last_deactivated_time := t.last_deactivated_time
    active := t.active }))

/-- Restoring the snapshot onto the freshly constructed triggers: a
trigger whose name is in the snapshot gets the saved timing state. -/
def restoreTiming (timing_state : List (String × TimingState)) (triggers : List Trigger) :
    List Trigger :=
  triggers.map (fun t =>
    match lookupLast timing_state t.name with
    | some st => { t with
        became_invalid_time := st.became_invalid_time
        last_deactivated_time := st.last_deactivated_time
        active := st.active }
    | none => t)

/-- The loop calling `setup_roi` on every trigger: the source mutates
triggers one at a time, so on a failure the already-processed prefix
keeps its new ROI, the rest is untouched, and the error propagates. -/
def setupAll (frame_height frame_width : ℕ) : List Trigger → List Trigger × Option String
  | [] => ([], none)
  | t :: rest =>
    match t.setup_roi frame_height frame_width with
    | .error e => (t :: rest, some e)
    | .ok t1 =>
      let r := setupAll frame_height frame_width rest
      (t1 :: r.1, r.2)

/-- The `global_defaults` dict built in `_load_config` from the top
level of the configuration file. -/
def globalDefaultsOf (file : ConfigFile) : GlobalDefaults := {
  debounce := file.debounce.getD 0
  throttle := file.throttle.getD 0
  colour := file.colour }

/-- Translation of `_load_config`, with the configuration contents and
modification time as inputs (the file read) and the filesystem
modelled by an existence predicate `fs`. Python exceptions leave the
partial mutations in place, so the result is the post-state plus an
optional escaping error. Camera-index resolution and printing are
collaborator calls and are not modelled. -/
def loadConfig (fs : String → Bool) (file : ConfigFile) (mtime : ℚ) (s : AppState) :
    AppState × Option String :=
  let s := { s with config := some file, config_mtime := some mtime }
  match file.source with
  | none => (s, some "KeyError: source")
  | some source =>
    let s := { s with
      use_camera := false
      camera_name := none
      video_path := none
      mirror := file.mirror.getD false
      scale := file.scale.getD 1 }
    if s.scale ≤ 0 then (s, some "Scale must be greater than 0")
    else
      let s :=
        if source.toLower = "camera" then { s with use_camera := true }
        else if fs source then { s with video_path := some source }
        else { s with use_camera := true, camera_name := some source }
      if ¬ s.use_camera ∧ s.video_path.isSome ∧ ¬ fs (s.video_path.getD "") then
        (s, some "Video file not found")
      else
        let global_defaults := globalDefaultsOf file
        match file.triggers with
        | none => (s, some "KeyError: triggers")
        | some trigger_configs =>
          match trigger_configs.mapM (fun tc => Trigger.init tc global_defaults) with
          | .error e => (s, some e)
          | .ok new_triggers => ({ s with triggers := new_triggers }, none)

/-- Translation of `_reload_if_changed`, with the stat result and file
contents as inputs (`stat_mtime = none` models `FileNotFoundError`
from `stat`, the only exception the method catches). Any error raised
deeper (configuration validation, ROI setup) escapes together with the
partial state. Device bookkeeping and the printed warnings have no
engine-state effect and are not modelled. -/
def reloadIfChanged (fs : String → Bool) (file : ConfigFile) (stat_mtime : Option ℚ)
    (s : AppState) : AppState × Option String :=
  match stat_mtime with
  | none => (s, none)
  | some new_mtime =>
    if s.config_mtime.isSome ∧ new_mtime ≤ s.config_mtime.getD 0 then (s, none)
    else
      let timing_state := snapshotTiming s.triggers
      let loaded := loadConfig fs file new_mtime s
      match loaded.2 with
      | some e => (loaded.1, some e)
      | none =>
        let s := { loaded.1 with triggers := restoreTiming timing_state loaded.1.triggers }
        let setup := setupAll s.frame_height s.frame_width s.triggers
        ({ s with triggers := setup.1 }, setup.2)

/-- Translation of `reset_first_frame`: clear the stored baseline of
every difference-family trigger (the printed count is not modelled). -/
def reset_first_frame (triggers : List Trigger) : List Trigger :=
  triggers.map (fun t =>
    if t.trigger_type = "difference" ∨ t.trigger_type = "difference range" then
      { t with first_roi := none }
    else t)

/-- The region used by the concrete example trigger: the top-left
quarter of the frame. -/
def doorPosition : PositionConfig :=
  { x := some 0, y := some 0, width := some 50, height := some 50 }

/-- A valid difference-mode trigger configuration named Door, used as
concrete input. -/
def doorConfig : TriggerConfig := {
  name := some "Door"
  position := some doorPosition
  type := some "difference"
  threshold := some 150
  midi := some { note := some 60, velocity := some (.num 100), channel := some 0 } }

/-- A valid configuration file holding just the Door trigger. -/
def doorFile : ConfigFile := { source := some "camera", triggers := some [doorConfig] }

/-- The same file with an out-of-range threshold (999), which fails
validation in `Trigger.init`. -/
def badFile : ConfigFile := {
  source := some "camera"
  triggers := some [{ doorConfig with threshold := some 999 }] }

/-- The Door trigger as a running object: constructed from `doorConfig`
and then mutated by the frame loop — it is active, holds a captured
baseline sample, and carries debounce / throttle timing state. -/
def doorTrigger0 : Trigger := {
  name := "Door"
  position := doorPosition
  active_color := (255, 255, 255)
  inactive_color := (128, 128, 128)
  trigger_type := "difference"
  threshold := some 150
  range_min := none
  range_max := none
  midi_config := { note := some 60, velocity := some (.num 100), channel := some 0 }
  device_name := none
  debounce := 0
  throttle := 0
  velocity := some (.fixed 100)
  active := true
  last_cc_value := none
  range_level := 0
  roi_coords := some (0, 0, 50, 50)
  previous_roi := none
  first_roi := some [7]
  detected_value := 0
  became_invalid_time := some 5
  last_deactivated_time := some 3 }

/-- A running engine state holding the Door trigger, with the Door
configuration loaded at modification time 1. -/
def appState0 : AppState := {
  config := some doorFile
  config_mtime := some 1
  triggers := [doorTrigger0]
  use_camera := true
  camera_name := none
  video_path := none
  mirror := false
  scale := 1
  frame_height := 100
  frame_width := 100 }

/-- A filesystem on which no path exists (the example configurations
use the camera source). -/
def noFS : String → Bool := fun _ => false

/-- A 10 by 10 frame of constant intensity `v`. -/
def constFrame (v : ℕ) : Frame := { height := 10, width := 10, pixel := fun _ _ => v }

/-- A concrete brightness trigger watching the top-left 5 by 5 region
of a 10 by 10 frame, used as the base of the concrete examples. -/
def brightTrigger : Trigger := {
  name := "Bright"
  position := doorPosition
  active_color := (255, 255, 255)
  inactive_color := (128, 128, 128)
  trigger_type := "brightness"
  threshold := some 100
  range_min := none
  range_max := none
  midi_config := { note := some 60, velocity := some (.num 100), channel := some 0 }
  device_name := none
  debounce := 2
  throttle := 3
  velocity := some (.fixed 100)
  active := false
  last_cc_value := none
  range_level := 0
  roi_coords := some (0, 0, 5, 5)
  previous_roi := none
  first_roi := none
  detected_value := 0
  became_invalid_time := none
  last_deactivated_time := none }

/-- A concrete range trigger with min 50 and max 200 (the span used in
the specification's worked example). -/
def rangeTrigger : Trigger := { brightTrigger with
  name := "Level"
  trigger_type := "range"
  threshold := none
  range_min := some 50
  range_max := some 200
  midi_config := { cc := some 1, channel := some 0 }
  velocity := none }

/-- A concrete difference-range trigger with no captured baseline. -/
def diffRangeTrigger : Trigger := { rangeTrigger with trigger_type := "difference range" }

/-- A concrete motion trigger with no stored previous sample. -/
def motionTrigger : Trigger := { brightTrigger with
  name := "Move"
  trigger_type := "motion"
  threshold := some 10 }

/-- A concrete difference trigger with no captured baseline. -/
def diffTrigger : Trigger := { brightTrigger with
  name := "Drift"
  trigger_type := "difference"
  threshold := some 10 }

/-- A concrete trigger with the variable-velocity calibration points
(10, 20) and (100, 120) of the specification's worked example and a
given last detected value. -/
def varVelTrigger (v : ℚ) : Trigger := { brightTrigger with
  velocity := some (.variable 10 20 100 120)
  detected_value := v }

/-- The brightness trigger while active (debounce 2 pending). -/
def activeBright : Trigger := { brightTrigger with active := true }

/-- The brightness trigger just after a deactivation at time 0
(throttle 3 applies). -/
def inactiveBright : Trigger := { brightTrigger with last_deactivated_time := some 0 }

/-- The active brightness trigger with debounce 0 and a midi mapping
that omits the `channel` key (validation accepts this: it reads the
key with a default but never stores it back). -/
def noChannelBright : Trigger := { brightTrigger with
  active := true
  debounce := 0
  midi_config := { note := some 60, velocity := some (.num 100) } }

/-- The idle brightness trigger with the same channel-less mapping and
no recorded deactivation. -/
def noChannelIdle : Trigger := { brightTrigger with
  midi_config := { note := some 60, velocity := some (.num 100) } }

/-! Helper lemmas -/

theorem extractROI_length (f : Frame) (x y w h : ℕ) :
    (extractROI f x y w h).length = h * w := by
  simp [extractROI, Function.comp_def, List.map_const', List.sum_replicate, smul_eq_mul]

theorem absdiff_self (s : List ℕ) : absdiff s s = List.replicate s.length 0 := by
  induction s with
  | nil => rfl
  | cons a l ih => simp [absdiff, List.replicate_succ, ih]

theorem meanAbsDiff_self (s : List ℕ) : meanAbsDiff s s = 0 := by
  unfold meanAbsDiff mean
  rw [absdiff_self]
  simp

theorem except_bind_ok {α β : Type} {x : Except String α} {f : α → Except String β} {b : β}
    (h : x >>= f = .ok b) : ∃ a, x = .ok a ∧ f a = .ok b := by
  cases x with
  | error e => simp [Bind.bind, Except.bind] at h
  | ok a => exact ⟨a, rfl, by simpa [Bind.bind, Except.bind] using h⟩

/-- The detection pass touches only the detection fields: the
activation, timing and output-binding state survives `check_trigger`
unchanged, whatever the trigger's type. -/
theorem check_trigger_runtime (t : Trigger) (frame : Frame) :
    (t.check_trigger frame).1.active = t.active ∧
    (t.check_trigger frame).1.became_invalid_time = t.became_invalid_time ∧
    (t.check_trigger frame).1.last_deactivated_time = t.last_deactivated_time ∧
    (t.check_trigger frame).1.last_cc_value = t.last_cc_value ∧
    (t.check_trigger frame).1.debounce = t.debounce ∧
    (t.check_trigger frame).1.throttle = t.throttle ∧
    (t.check_trigger frame).1.trigger_type = t.trigger_type ∧
    (t.check_trigger frame).1.midi_config = t.midi_config ∧
    (t.check_trigger frame).1.device_name = t.device_name ∧
    (t.check_trigger frame).1.velocity = t.velocity ∧
    (t.check_trigger frame).1.threshold = t.threshold ∧
    (t.check_trigger frame).1.roi_coords = t.roi_coords ∧
    (t.check_trigger frame).1.name = t.name := by
  unfold Trigger.check_trigger
  dsimp only
  repeat' split
  all_goals simp

/-- Velocity computation only depends on the velocity configuration,
the detected value and the trigger name. -/
theorem get_velocity_congr (s t : Trigger) (hv : s.velocity = t.velocity)
    (hd : s.detected_value = t.detected_value) (hn : s.name = t.name) :
    s.get_velocity = t.get_velocity := by
  unfold Trigger.get_velocity
  rw [hv, hd, hn]

/-- Full characterisation of a false-condition evaluation of an active
binary trigger, including the channel lookup on the emit path: the
deactivation state change always happens, but the noteOff message is
only sent when the channel key is present - otherwise the KeyError
escapes with nothing emitted. -/
theorem binaryStep_false_active (t : Trigger) (time : ℚ)
    (ha : t.active = true) (hd : 0 ≤ t.debounce) :
    (binaryStep time false t).1.became_invalid_time =
      some (t.became_invalid_time.getD time) ∧
    ((binaryStep time false t).1.active = false ↔
      (t.debounce = 0 ∨ t.debounce ≤ time - t.became_invalid_time.getD time)) ∧
    ((binaryStep time false t).1.active = false →
      (binaryStep time false t).1.last_deactivated_time = some time ∧
      (∀ ch, t.midi_config.channel = some ch →
        (binaryStep time false t).2.1 =
          [.noteOff t.device_name (t.midi_config.note.getD 0) ch] ∧
        (binaryStep time false t).2.2 = none) ∧
      (t.midi_config.channel = none →
        (binaryStep time false t).2.1 = [] ∧
        (binaryStep time false t).2.2 = some "KeyError: channel")) ∧
    ((binaryStep time false t).1.active = true →
      (binaryStep time false t).1.last_deactivated_time = t.last_deactivated_time ∧
      (binaryStep time false t).2.1 = [] ∧ (binaryStep time false t).2.2 = none) := by
  unfold binaryStep
  rcases hch : t.midi_config.channel with _ | ch <;> rcases hb : t.became_invalid_time with _ | v
  all_goals by_cases hpos : t.debounce > 0
  all_goals try (simp [hb, ha, hch, le_antisymm (not_lt.mp hpos) hd]; done)
  all_goals try (simp [hb, ha, hch, ne_of_gt hpos, not_le.mpr hpos]; done)
  all_goals by_cases hge : time - v ≥ t.debounce
  all_goals simp [hb, ha, hch, hpos, hge, ne_of_gt hpos]

/-- Full characterisation of a true-condition evaluation of an
inactive binary trigger, including the emit-path error cases: on
activation the state change always happens, but the noteOn message is
only sent when the velocity computation succeeds and the channel key
is present - otherwise the exception escapes with nothing emitted. -/
theorem binaryStep_true_inactive (t : Trigger) (time : ℚ)
    (ha : t.active = false) (hr : 0 ≤ t.throttle) :
    (binaryStep time true t).1.became_invalid_time = none ∧
    ((binaryStep time true t).1.active = true ↔
      (t.throttle = 0 ∨ t.last_deactivated_time = none ∨
        t.throttle ≤ time - t.last_deactivated_time.getD 0)) ∧
    ((binaryStep time true t).1.active = true →
      (∀ v ch, t.get_velocity = .ok v → t.midi_config.channel = some ch →
        (binaryStep time true t).2.1 =
          [.noteOn t.device_name (t.midi_config.note.getD 0) v ch] ∧
        (binaryStep time true t).2.2 = none) ∧
      (∀ v, t.get_velocity = .ok v → t.midi_config.channel = none →
        (binaryStep time true t).2.1 = [] ∧
        (binaryStep time true t).2.2 = some "KeyError: channel") ∧
      (∀ e, t.get_velocity = .error e →
        (binaryStep time true t).2.1 = [] ∧ (binaryStep time true t).2.2 = some e)) ∧
    ((binaryStep time true t).1.active = false →
      (binaryStep time true t).2.1 = [] ∧ (binaryStep time true t).2.2 = none ∧
      (binaryStep time true t).1.last_deactivated_time = t.last_deactivated_time ∧
      (binaryStep time true t).1 = { t with became_invalid_time := none }) := by
  have hgv :
      ({ t with became_invalid_time := none, active := true } : Trigger).get_velocity
      = t.get_velocity := get_velocity_congr _ _ rfl rfl rfl
  try dsimp only at hgv
  unfold binaryStep
  dsimp only
  rw [hgv]
  rcases hv : t.get_velocity with e | v <;> rcases hch : t.midi_config.channel with _ | ch <;>
    rcases hl : t.last_deactivated_time with _ | t0
  all_goals try (simp [hv, hch, hl, ha]; done)
  all_goals by_cases hpos : t.throttle > 0
  all_goals try (simp [hv, hch, hl, ha, le_antisymm (not_lt.mp hpos) hr]; done)
  all_goals by_cases hge : time - t0 ≥ t.throttle
  all_goals simp [hv, hch, hl, ha, hpos, hge, ne_of_gt hpos]

/-- A true-condition evaluation of an already active binary trigger
only clears the debounce timestamp and emits nothing. -/
theorem binaryStep_true_active (t : Trigger) (time : ℚ) (ha : t.active = true) :
    binaryStep time true t = ({ t with became_invalid_time := none }, [], none) := by
  unfold binaryStep
  simp [ha]

/-- Projected form of `binaryStep_true_active`. -/
theorem binaryStep_true_active_parts (t : Trigger) (time : ℚ) (ha : t.active = true) :
    (binaryStep time true t).1.active = true ∧ (binaryStep time true t).2.1 = [] ∧
    (binaryStep time true t).2.2 = none := by
  rw [binaryStep_true_active t time ha]
  exact ⟨ha, rfl, rfl⟩

/-- During a debounce dip (condition false, strictly less than
`debounce` after the recorded invalidation time) an active trigger is
left exactly as it was, with no emission and no error. -/
theorem binaryStep_false_debouncing (t : Trigger) (time u0 : ℚ)
    (ha : t.active = true) (hb : t.became_invalid_time = some u0)
    (hd : 0 < t.debounce) (hlt : time - u0 < t.debounce) :
    binaryStep time false t = (t, [], none) := by
  unfold binaryStep
  simp [hb, ha, hd, not_le.mpr hlt]

/-- The first false-condition evaluation of an active trigger with a
positive debounce records the invalidation time and emits nothing. -/
theorem binaryStep_false_first (t : Trigger) (time : ℚ)
    (ha : t.active = true) (hb : t.became_invalid_time = none) (hd : 0 < t.debounce) :
    binaryStep time false t = ({ t with became_invalid_time := some time }, [], none) := by
  unfold binaryStep
  have : ¬ time - time ≥ t.debounce := by simpa using not_le.mpr hd
  simp [hb, ha, hd, this]

/-- A true-condition evaluation of an inactive trigger inside the
throttle window (strictly less than `throttle` after the recorded
deactivation) only clears the debounce timestamp and emits nothing. -/
theorem binaryStep_true_throttled (t : Trigger) (time t0 : ℚ)
    (ha : t.active = false) (hl : t.last_deactivated_time = some t0)
    (hr : 0 < t.throttle) (hlt : time - t0 < t.throttle) :
    binaryStep time true t = ({ t with became_invalid_time := none }, [], none) := by
  unfold binaryStep
  simp [hl, ha, hr, not_le.mpr hlt]

/-- State threading of a binary run across list concatenation, for a
prefix that raises no exception. -/
theorem runBinary_append (l1 l2 : List (ℚ × Bool)) (t : Trigger)
    (h : (runBinary t l1).2.2 = none) :
    runBinary t (l1 ++ l2) =
      ((runBinary (runBinary t l1).1 l2).1,
        (runBinary t l1).2.1 ++ (runBinary (runBinary t l1).1 l2).2.1,
        (runBinary (runBinary t l1).1 l2).2.2) := by
  induction l1 generalizing t with
  | nil => simp [runBinary]
  | cons p rest ih =>
    obtain ⟨u, b⟩ := p
    cases he : (binaryStep u b t).2.2 with
    | some e =>
      rw [show runBinary t ((u, b) :: rest) =
        ((binaryStep u b t).1, (binaryStep u b t).2.1, some e) by simp [runBinary, he]] at h
      exact absurd h (by simp)
    | none =>
      have hrw : runBinary t ((u, b) :: rest) =
          ((runBinary (binaryStep u b t).1 rest).1,
            (binaryStep u b t).2.1 ++ (runBinary (binaryStep u b t).1 rest).2.1,
            (runBinary (binaryStep u b t).1 rest).2.2) := by
        simp [runBinary, he]
      have htl : (runBinary (binaryStep u b t).1 rest).2.2 = none := by
        rw [hrw] at h
        exact h
      have ihr := ih (binaryStep u b t).1 htl
      rw [List.cons_append]
      rw [show runBinary t ((u, b) :: (rest ++ l2)) =
          ((runBinary (binaryStep u b t).1 (rest ++ l2)).1,
            (binaryStep u b t).2.1 ++ (runBinary (binaryStep u b t).1 (rest ++ l2)).2.1,
            (runBinary (binaryStep u b t).1 (rest ++ l2)).2.2) by simp [runBinary, he]]
      rw [ihr, hrw]
      simp

/-- Iterated false-condition evaluations inside the debounce window
leave the trigger untouched, emitting nothing and raising nothing. -/
theorem runBinary_debouncing (rest : List (ℚ × Bool)) (t : Trigger) (u0 : ℚ)
    (ha : t.active = true) (hb : t.became_invalid_time = some u0) (hd : 0 < t.debounce)
    (hin : ∀ p ∈ rest, p.2 = false ∧ p.1 - u0 < t.debounce) :
    runBinary t rest = (t, [], none) := by
  induction rest with
  | nil => rfl
  | cons p rest ih =>
    obtain ⟨u, b⟩ := p
    obtain ⟨hfalse, hlt⟩ := hin (u, b) (List.mem_cons_self _ _)
    subst hfalse
    have h1 := binaryStep_false_debouncing t u u0 ha hb hd hlt
    have h2 := ih (fun p hp => hin p (List.mem_cons_of_mem _ hp))
    simp [runBinary, h1, h2]

/-- Iterated true-condition evaluations inside the throttle window
keep the trigger inactive, emitting nothing and raising nothing. -/
theorem runBinary_throttled (inputs : List (ℚ × Bool)) (t : Trigger) (t0 : ℚ)
    (ha : t.active = false) (hl : t.last_deactivated_time = some t0) (hr : 0 < t.throttle)
    (hin : ∀ p ∈ inputs, p.2 = true ∧ p.1 - t0 < t.throttle) :
    (runBinary t inputs).1.active = false ∧ (runBinary t inputs).2.1 = [] ∧
    (runBinary t inputs).2.2 = none := by
  induction inputs generalizing t with
  | nil => exact ⟨ha, rfl, rfl⟩
  | cons p rest ih =>
    obtain ⟨u, b⟩ := p
    obtain ⟨htrue, hlt⟩ := hin (u, b) (List.mem_cons_self _ _)
    subst htrue
    have h1 := binaryStep_true_throttled t u t0 ha hl hr hlt
    have h2 := ih { t with became_invalid_time := none } ha hl hr
      (fun p hp => hin p (List.mem_cons_of_mem _ hp))
    simp [runBinary, h1, h2.1, h2.2.1, h2.2.2]

/-! Claim theorems -/

/-- C4 (amended): for every binary-mode Trigger evaluated with
condition false while Active at timestamp t, became_invalid_at is set
to t if it was unset, and the Trigger deactivates (setting
last_deactivated_at = t) if and only if debounce = 0 or
t - became_invalid_at is at least debounce; on deactivation the
noteOff message is emitted only when the midi mapping carries a
channel key - without one the channel subscript raises a KeyError
after the state change, and nothing is emitted. For debounce d
positive, an Active Trigger whose condition is false for any duration
strictly less than d and then true again never deactivates and emits
nothing during that dip. -/
theorem C4_debounce :
    (∀ (t : Trigger) (time : ℚ) (frame : Frame),
      ¬ (t.trigger_type = "range" ∨ t.trigger_type = "difference range") →
      t.active = true → (t.check_trigger frame).2.toBool = false → 0 ≤ t.debounce →
      (processTrigger time frame t).1.became_invalid_time =
        some (t.became_invalid_time.getD time) ∧
      ((processTrigger time frame t).1.active = false ↔
        (t.debounce = 0 ∨ t.debounce ≤ time - t.became_invalid_time.getD time)) ∧
      ((processTrigger time frame t).1.active = false →
        (processTrigger time frame t).1.last_deactivated_time = some time ∧
        (∀ ch, t.midi_config.channel = some ch →
          (processTrigger time frame t).2.1 =
            [.noteOff t.device_name (t.midi_config.note.getD 0) ch] ∧
          (processTrigger time frame t).2.2 = none) ∧
        (t.midi_config.channel = none →
          (processTrigger time frame t).2.1 = [] ∧
          (processTrigger time frame t).2.2 = some "KeyError: channel")) ∧
      ((processTrigger time frame t).1.active = true →
        (processTrigger time frame t).1.last_deactivated_time = t.last_deactivated_time ∧
        (processTrigger time frame t).2.1 = [] ∧
        (processTrigger time frame t).2.2 = none)) ∧
    (∀ (t : Trigger) (u0 : ℚ) (rest : List (ℚ × Bool)) (u1 : ℚ),
      t.active = true → t.became_invalid_time = none → 0 < t.debounce →
      (∀ p ∈ rest, p.2 = false ∧ p.1 - u0 < t.debounce) →
      (runBinary t ((u0, false) :: (rest ++ [(u1, true)]))).1.active = true ∧
      (runBinary t ((u0, false) :: (rest ++ [(u1, true)]))).2.1 = [] ∧
      (runBinary t ((u0, false) :: (rest ++ [(u1, true)]))).2.2 = none) := by
  constructor
  · intro t time frame htype ha hcond hd
    obtain ⟨h_active, h_biv, h_ld, h_lcc, h_deb, h_thr, h_type, h_midi, h_dev, h_vel,
      h_thresh, h_roi, h_name⟩ := check_trigger_runtime t frame
    unfold processTrigger
    rw [if_neg htype]
    dsimp only
    rw [hcond]
    have hstep := binaryStep_false_active (t.check_trigger frame).1 time
      (h_active.trans ha) (by rw [h_deb]; exact hd)
    rw [h_biv, h_ld, h_deb, h_dev, h_midi] at hstep
    exact hstep
  · intro t u0 rest u1 ha hb hd hin
    have h1 := binaryStep_false_first t u0 ha hb hd
    have e0 : runBinary t [(u0, false)] =
        ({ t with became_invalid_time := some u0 }, [], none) := by
      simp [runBinary, h1]
    have h2 := runBinary_debouncing rest { t with became_invalid_time := some u0 } u0
      ha rfl hd hin
    have h3 := binaryStep_true_active_parts { t with became_invalid_time := some u0 } u1 ha
    have e3 : (runBinary { t with became_invalid_time := some u0 } [(u1, true)]).1.active = true ∧
        (runBinary { t with became_invalid_time := some u0 } [(u1, true)]).2.1 = [] ∧
        (runBinary { t with became_invalid_time := some u0 } [(u1, true)]).2.2 = none := by
      refine ⟨?_, ?_, ?_⟩ <;> simp [runBinary, h3.1, h3.2.1, h3.2.2]
    have hsplit : (u0, false) :: (rest ++ [(u1, true)]) =
        ([(u0, false)] ++ rest) ++ [(u1, true)] := by simp
    have hpre0 : (runBinary t [(u0, false)]).2.2 = none := by rw [e0]
    have hpre : (runBinary t ([(u0, false)] ++ rest)).2.2 = none := by
      rw [runBinary_append [(u0, false)] rest t hpre0, e0]
      dsimp only
      rw [h2]
    refine ⟨?_, ?_, ?_⟩ <;>
    · rw [hsplit, runBinary_append ([(u0, false)] ++ rest) [(u1, true)] t hpre,
        runBinary_append [(u0, false)] rest t hpre0, e0]
      dsimp only
      rw [h2]
      dsimp only
      simp [e3.1, e3.2.1, e3.2.2]

/-- C4 counterexample to the unamended claim: the active channel-less
brightness trigger with debounce 0, evaluated on a dark frame,
deactivates but emits no deactivation event - the channel lookup
raises a KeyError instead. -/
theorem C4_debounce_counterexample :
    noChannelBright.active = true ∧
    noChannelBright.debounce = 0 ∧
    (noChannelBright.check_trigger (constFrame 0)).2.toBool = false ∧
    (processTrigger 10 (constFrame 0) noChannelBright).1.active = false ∧
    (processTrigger 10 (constFrame 0) noChannelBright).1.last_deactivated_time = some 10 ∧
    (processTrigger 10 (constFrame 0) noChannelBright).2.1 = [] ∧
    (processTrigger 10 (constFrame 0) noChannelBright).2.2 = some "KeyError: channel" := by
  refine ⟨rfl, rfl, by with_unfolding_all decide, ?_, ?_, ?_, ?_⟩ <;> with_unfolding_all rfl

/-- C4 witness: the active brightness trigger evaluated on a dark
frame at time 10 records became_invalid_at = 10 and stays active
(debounce 2 not yet elapsed); a dip of false conditions at times 0 and
1 followed by a true condition at time 3/2 (all within debounce 2)
leaves it active, emits nothing and raises nothing. -/
theorem C4_debounce_witness :
    (activeBright.check_trigger (constFrame 0)).2.toBool = false ∧
    activeBright.active = true ∧
    (0 : ℚ) ≤ activeBright.debounce ∧
    (processTrigger 10 (constFrame 0) activeBright).1.became_invalid_time = some 10 ∧
    (processTrigger 10 (constFrame 0) activeBright).1.active = true ∧
    (runBinary activeBright [(0, false), (1, false), (3/2, true)]).1.active = true ∧
    (runBinary activeBright [(0, false), (1, false), (3/2, true)]).2.1 = [] ∧
    (runBinary activeBright [(0, false), (1, false), (3/2, true)]).2.2 = none := by
  have hstep := C4_debounce.1 activeBright 10 (constFrame 0) (by with_unfolding_all decide) rfl
    (by with_unfolding_all decide) (by norm_num [activeBright, brightTrigger])
  have hdip := C4_debounce.2 activeBright 0 [(1, false)] (3/2) rfl rfl
    (by norm_num [activeBright, brightTrigger])
    (by intro p hp; simp at hp; subst hp; norm_num [activeBright, brightTrigger])
  refine ⟨by with_unfolding_all decide, rfl, by norm_num [activeBright, brightTrigger],
    hstep.1, ?_, hdip.1, hdip.2.1, hdip.2.2⟩
  have hnot : ¬ ((processTrigger 10 (constFrame 0) activeBright).1.active = false) := by
    rw [hstep.2.1]
    push_neg
    refine ⟨by norm_num [activeBright, brightTrigger], ?_⟩
    norm_num [activeBright, brightTrigger]
  exact Bool.not_eq_false _ |>.mp hnot

/-- C5 (amended): for every binary-mode Trigger evaluated with
condition true while Inactive at timestamp t, became_invalid_at is
cleared, and the Trigger activates if and only if throttle = 0, or
last_deactivated_at is unset, or t - last_deactivated_at is at least
throttle; on activation the noteOn message is emitted only when the
velocity computation succeeds and the midi mapping carries a channel
key - a missing channel raises a KeyError after the state change, and
a failing velocity computation raises before any emission. A throttled
activation is dropped (no event, nothing queued), so a Trigger
deactivated at t0 with throttle r positive does not reactivate on any
frame before t0 + r even under a continuously true condition. -/
theorem C5_throttle :
    (∀ (t : Trigger) (time : ℚ) (frame : Frame),
      ¬ (t.trigger_type = "range" ∨ t.trigger_type = "difference range") →
      t.active = false → (t.check_trigger frame).2.toBool = true → 0 ≤ t.throttle →
      (processTrigger time frame t).1.became_invalid_time = none ∧
      ((processTrigger time frame t).1.active = true ↔
        (t.throttle = 0 ∨ t.last_deactivated_time = none ∨
          t.throttle ≤ time - t.last_deactivated_time.getD 0)) ∧
      ((processTrigger time frame t).1.active = true →
        (∀ v ch, (t.check_trigger frame).1.get_velocity = .ok v →
            t.midi_config.channel = some ch →
          (processTrigger time frame t).2.1 =
            [.noteOn t.device_name (t.midi_config.note.getD 0) v ch] ∧
          (processTrigger time frame t).2.2 = none) ∧
        (∀ v, (t.check_trigger frame).1.get_velocity = .ok v →
            t.midi_config.channel = none →
          (processTrigger time frame t).2.1 = [] ∧
          (processTrigger time frame t).2.2 = some "KeyError: channel") ∧
        (∀ e, (t.check_trigger frame).1.get_velocity = .error e →
          (processTrigger time frame t).2.1 = [] ∧
          (processTrigger time frame t).2.2 = some e)) ∧
      ((processTrigger time frame t).1.active = false →
        (processTrigger time frame t).2.1 = [] ∧
        (processTrigger time frame t).2.2 = none ∧
        (processTrigger time frame t).1.last_deactivated_time = t.last_deactivated_time)) ∧
    (∀ (t : Trigger) (t0 : ℚ) (inputs : List (ℚ × Bool)),
      t.active = false → t.last_deactivated_time = some t0 → 0 < t.throttle →
      (∀ p ∈ inputs, p.2 = true ∧ p.1 - t0 < t.throttle) →
      (runBinary t inputs).1.active = false ∧ (runBinary t inputs).2.1 = [] ∧
      (runBinary t inputs).2.2 = none) := by
  constructor
  · intro t time frame htype ha hcond hr
    obtain ⟨h_active, h_biv, h_ld, h_lcc, h_deb, h_thr, h_type, h_midi, h_dev, h_vel,
      h_thresh, h_roi, h_name⟩ := check_trigger_runtime t frame
    unfold processTrigger
    rw [if_neg htype]
    dsimp only
    rw [hcond]
    have hstep := binaryStep_true_inactive (t.check_trigger frame).1 time
      (h_active.trans ha) (by rw [h_thr]; exact hr)
    rw [h_ld, h_thr, h_dev, h_midi] at hstep
    exact ⟨hstep.1, hstep.2.1, hstep.2.2.1,
      fun hf => ⟨(hstep.2.2.2 hf).1, (hstep.2.2.2 hf).2.1, (hstep.2.2.2 hf).2.2.1⟩⟩
  · intro t t0 inputs ha hl hr hin
    exact runBinary_throttled inputs t t0 ha hl hr hin

/-- C5 counterexample to the unamended claim: the idle channel-less
brightness trigger with no recorded deactivation sees a true condition
on a bright frame and activates, but emits no activation event - the
velocity is computed, then the channel lookup raises a KeyError. -/
theorem C5_throttle_counterexample :
    noChannelIdle.active = false ∧
    noChannelIdle.last_deactivated_time = none ∧
    (noChannelIdle.check_trigger (constFrame 200)).2.toBool = true ∧
    (processTrigger 1 (constFrame 200) noChannelIdle).1.active = true ∧
    (processTrigger 1 (constFrame 200) noChannelIdle).2.1 = [] ∧
    (processTrigger 1 (constFrame 200) noChannelIdle).2.2 = some "KeyError: channel" := by
  refine ⟨rfl, rfl, by with_unfolding_all decide, ?_, ?_, ?_⟩ <;> with_unfolding_all rfl

/-- C5 witness: the brightness trigger just deactivated at time 0
(throttle 3) sees a true condition on a bright frame at time 1 and
stays inactive with no emission and no error; a run of true conditions
at times 1 and 2 (both before 0 + 3) keeps it inactive and silent. -/
theorem C5_throttle_witness :
    (inactiveBright.check_trigger (constFrame 200)).2.toBool = true ∧
    inactiveBright.active = false ∧
    (0 : ℚ) ≤ inactiveBright.throttle ∧
    (processTrigger 1 (constFrame 200) inactiveBright).1.active = false ∧
    (processTrigger 1 (constFrame 200) inactiveBright).2.1 = [] ∧
    (processTrigger 1 (constFrame 200) inactiveBright).2.2 = none ∧
    (runBinary inactiveBright [(1, true), (2, true)]).1.active = false ∧
    (runBinary inactiveBright [(1, true), (2, true)]).2.1 = [] ∧
    (runBinary inactiveBright [(1, true), (2, true)]).2.2 = none := by
  have hstep := C5_throttle.1 inactiveBright 1 (constFrame 200) (by with_unfolding_all decide)
    rfl (by with_unfolding_all decide) (by norm_num [inactiveBright, brightTrigger])
  have hdip := C5_throttle.2 inactiveBright 0 [(1, true), (2, true)] rfl rfl
    (by norm_num [inactiveBright, brightTrigger])
    (by
      intro p hp
      simp at hp
      rcases hp with hp | hp <;> subst hp <;> norm_num [inactiveBright, brightTrigger])
  have hinact : (processTrigger 1 (constFrame 200) inactiveBright).1.active = false := by
    have hnot : ¬ ((processTrigger 1 (constFrame 200) inactiveBright).1.active = true) := by
      rw [hstep.2.1]
      push_neg
      refine ⟨by norm_num [inactiveBright, brightTrigger], by simp [inactiveBright], ?_⟩
      norm_num [inactiveBright, brightTrigger]
    exact Bool.not_eq_true _ |>.mp hnot
  exact ⟨by with_unfolding_all decide, rfl, by norm_num [inactiveBright, brightTrigger],
    hinact, (hstep.2.2.2 hinact).1, (hstep.2.2.2 hinact).2.1, hdip.1, hdip.2.1, hdip.2.2⟩

/-- C6: variable-velocity mapping: with calibration points
(detected_a, velocity_a) and (detected_b, velocity_b), the result is
velocity_a when v is at most detected_a, velocity_b when v is at least
detected_b, velocity_a in the (unreachable) equal-anchors remainder,
and otherwise the linear interpolation rounded to the nearest integer
and clamped to 0..127; in particular, for anchors (10, 20) and
(100, 120): velocity(5) = 20, velocity(200) = 120, velocity(55) = 70. -/
theorem C6_variable_velocity :
    (∀ (t : Trigger) (a va b vb v : ℚ),
      t.velocity = some (.variable a va b vb) → t.detected_value = v →
      (v ≤ a → t.get_velocity = .ok va) ∧
      (¬ v ≤ a → v ≥ b → t.get_velocity = .ok vb) ∧
      (¬ v ≤ a → ¬ v ≥ b → a = b → t.get_velocity = .ok va) ∧
      (¬ v ≤ a → ¬ v ≥ b → a ≠ b →
        t.get_velocity =
          .ok ((max 0 (min 127 (pyRound (va + (v - a) / (b - a) * (vb - va)))) : ℤ) : ℚ))) ∧
    (varVelTrigger 5).get_velocity = .ok 20 ∧
    (varVelTrigger 200).get_velocity = .ok 120 ∧
    (varVelTrigger 55).get_velocity = .ok 70 := by
  refine ⟨?_, ?_, ?_, ?_⟩
  · intro t a va b vb v hvel hdet
    refine ⟨?_, ?_, ?_, ?_⟩
    · intro h1
      simp [Trigger.get_velocity, hvel, hdet, h1]
    · intro h1 h2
      simp only [Trigger.get_velocity, hvel, hdet]
      rw [if_neg h1, if_pos h2]
    · intro h1 h2 hab
      push_neg at h1 h2
      subst hab
      exact absurd (lt_trans h1 h2) (lt_irrefl a)
    · intro h1 h2 hab
      have hne : b - a ≠ 0 := sub_ne_zero.mpr (Ne.symm hab)
      simp only [Trigger.get_velocity, hvel, hdet]
      rw [if_neg h1, if_neg h2, if_neg hne]
  · with_unfolding_all rfl
  · with_unfolding_all rfl
  · with_unfolding_all rfl

/-- C6 witness: the general mapping applied at the worked example,
with detected value 55 strictly between the anchors. -/
theorem C6_variable_velocity_witness :
    (varVelTrigger 55).velocity = some (.variable 10 20 100 120) ∧
    (varVelTrigger 55).detected_value = 55 ∧
    ¬ (55 : ℚ) ≤ 10 ∧ ¬ (55 : ℚ) ≥ 100 ∧ (10 : ℚ) ≠ 100 ∧
    (varVelTrigger 55).get_velocity =
      .ok ((max 0 (min 127 (pyRound (20 + ((55 : ℚ) - 10) / (100 - 10) * (120 - 20)))) : ℤ) : ℚ) := by
  have h := (C6_variable_velocity.1 (varVelTrigger 55) 10 20 100 120 55 rfl rfl).2.2.2
    (by norm_num) (by norm_num) (by norm_num)
  exact ⟨rfl, rfl, by norm_num, by norm_num, by norm_num, h⟩

/-- C7: range mapping: the detected mean intensity is clipped to the
interval between min and max, the normalized level is
(clipped - range_min) / (range_max - range_min) and is 0 (not an
error) when range_min = range_max, and the emitted value is
round(level times 127); with min 50 and max 200: input 50 gives level
0 and value 0, input 200 gives level 1 and value 127, input 125 gives
level 1/2 and value 64. -/
theorem C7_range_mapping :
    (∀ (t : Trigger) (frame : Frame) (x y w h : ℕ) (rmin rmax : ℚ),
      t.trigger_type = "range" → t.roi_coords = some (x, y, w, h) →
      t.range_min = some rmin → t.range_max = some rmax →
      (t.check_trigger frame).1.range_level =
        (if rmin = rmax then 0
         else (min (max (mean (extractROI frame x y w h)) (min rmin rmax)) (max rmin rmax)
            - rmin) / (rmax - rmin)) ∧
      (t.check_trigger frame).2 =
        .value (pyRound ((if rmin = rmax then 0
         else (min (max (mean (extractROI frame x y w h)) (min rmin rmax)) (max rmin rmax)
            - rmin) / (rmax - rmin)) * 127))) ∧
    ((rangeTrigger.check_trigger (constFrame 50)).1.range_level = 0 ∧
      (rangeTrigger.check_trigger (constFrame 50)).2 = .value 0) ∧
    ((rangeTrigger.check_trigger (constFrame 200)).1.range_level = 1 ∧
      (rangeTrigger.check_trigger (constFrame 200)).2 = .value 127) ∧
    ((rangeTrigger.check_trigger (constFrame 125)).1.range_level = 1/2 ∧
      (rangeTrigger.check_trigger (constFrame 125)).2 = .value 64) := by
  refine ⟨?_, ?_, ?_, ?_⟩
  · intro t frame x y w h rmin rmax htype hroi hmin hmax
    unfold Trigger.check_trigger
    rw [hroi]
    dsimp only
    rw [htype, hmin, hmax]
    simp
  · constructor <;> with_unfolding_all decide
  · constructor <;> with_unfolding_all decide
  · constructor <;> with_unfolding_all decide

/-- C7 witness: the general mapping applied to the concrete range
trigger on the constant frame of intensity 125. -/
theorem C7_range_mapping_witness :
    rangeTrigger.trigger_type = "range" ∧
    rangeTrigger.roi_coords = some (0, 0, 5, 5) ∧
    rangeTrigger.range_min = some 50 ∧ rangeTrigger.range_max = some 200 ∧
    (rangeTrigger.check_trigger (constFrame 125)).2 =
      .value (pyRound ((if (50 : ℚ) = 200 then 0
        else (min (max (mean (extractROI (constFrame 125) 0 0 5 5)) (min (50 : ℚ) 200))
          (max (50 : ℚ) 200) - 50) / (200 - 50)) * 127)) := by
  have h := (C7_range_mapping.1 rangeTrigger (constFrame 125) 0 0 5 5 50 200
    rfl rfl rfl rfl).2
  exact ⟨rfl, rfl, rfl, rfl, h⟩

/-- C8: motion-mode warm-up: on the first invocation, and whenever the
stored reference sample's shape differs from the current sample's
shape, the detector stores the current sample as the new reference and
reports not-triggered with detected value 0 regardless of the
threshold; on every other invocation the detected value is the mean
absolute difference against the previous sample, scoped to the region,
and the reference is updated every call. -/
theorem C8_motion_warmup (t : Trigger) (frame : Frame) (x y w h : ℕ)
    (htype : t.trigger_type = "motion") (hroi : t.roi_coords = some (x, y, w, h)) :
    (t.previous_roi = none →
      t.check_trigger frame =
        ({ t with previous_roi := some (extractROI frame x y w h), detected_value := 0 },
          .bool false)) ∧
    (∀ p, t.previous_roi = some p → p.length ≠ (extractROI frame x y w h).length →
      t.check_trigger frame =
        ({ t with previous_roi := some (extractROI frame x y w h), detected_value := 0 },
          .bool false)) ∧
    (∀ p, t.previous_roi = some p → p.length = (extractROI frame x y w h).length →
      t.check_trigger frame =
        ({ t with
            previous_roi := some (extractROI frame x y w h)
            detected_value := meanAbsDiff (extractROI frame x y w h) p },
          .bool (decide (meanAbsDiff (extractROI frame x y w h) p ≥ t.threshold.getD 0)))) := by
  have htype1 : ¬ t.trigger_type = "brightness" := by rw [htype]; decide
  have htype2 : ¬ t.trigger_type = "darkness" := by rw [htype]; decide
  refine ⟨?_, ?_, ?_⟩
  · intro hprev
    unfold Trigger.check_trigger
    rw [hroi]
    dsimp only
    rw [if_neg htype1, if_neg htype2, if_pos htype, hprev]
  · intro p hprev hne
    unfold Trigger.check_trigger
    rw [hroi]
    dsimp only
    rw [if_neg htype1, if_neg htype2, if_pos htype, hprev]
    dsimp only
    rw [if_pos hne]
  · intro p hprev hlen
    unfold Trigger.check_trigger
    rw [hroi]
    dsimp only
    rw [if_neg htype1, if_neg htype2, if_pos htype, hprev]
    dsimp only
    rw [if_neg (by rw [hlen]; exact fun hc => hc rfl)]

/-- C8 witness: the fresh motion trigger evaluated on any frame stores
that frame's region sample and reports not triggered with detected
value 0, even though its threshold (10) would be met by a 0 detected
value comparison in the triggered branch only when 0 is at least the
threshold - here the warm-up branch forces false regardless. -/
theorem C8_motion_warmup_witness :
    motionTrigger.trigger_type = "motion" ∧
    motionTrigger.roi_coords = some (0, 0, 5, 5) ∧
    motionTrigger.previous_roi = none ∧
    motionTrigger.check_trigger (constFrame 7) =
      ({ motionTrigger with
          previous_roi := some (extractROI (constFrame 7) 0 0 5 5)
          detected_value := 0 }, .bool false) := by
  have h := (C8_motion_warmup motionTrigger (constFrame 7) 0 0 5 5 rfl rfl).1 rfl
  exact ⟨rfl, rfl, rfl, h⟩

/-- A difference-mode check against an in-shape stored baseline leaves
the baseline untouched and only records the detected drift. -/
theorem diff_check_some (t : Trigger) (frame : Frame) (x y w h : ℕ) (b : List ℕ)
    (htype : t.trigger_type = "difference") (hroi : t.roi_coords = some (x, y, w, h))
    (hfirst : t.first_roi = some b) (hlen : b.length = h * w) :
    t.check_trigger frame =
      ({ t with detected_value := meanAbsDiff (extractROI frame x y w h) b },
        .bool (decide (meanAbsDiff (extractROI frame x y w h) b ≥ t.threshold.getD 0))) := by
  have htype1 : ¬ t.trigger_type = "brightness" := by rw [htype]; decide
  have htype2 : ¬ t.trigger_type = "darkness" := by rw [htype]; decide
  have htype3 : ¬ t.trigger_type = "motion" := by rw [htype]; decide
  unfold Trigger.check_trigger
  rw [hroi]
  dsimp only
  rw [if_neg htype1, if_neg htype2, if_neg htype3, if_pos htype, hfirst]
  dsimp only
  rw [if_neg (by rw [hlen, extractROI_length]; exact fun hc => hc rfl)]

/-- A difference-mode check with no stored baseline captures the
current sample and reports detected value 0, not triggered. -/
theorem diff_check_none (t : Trigger) (frame : Frame) (x y w h : ℕ)
    (htype : t.trigger_type = "difference") (hroi : t.roi_coords = some (x, y, w, h))
    (hfirst : t.first_roi = none) :
    t.check_trigger frame =
      ({ t with
          first_roi := some (extractROI frame x y w h)
          detected_value := 0 }, .bool false) := by
  have htype1 : ¬ t.trigger_type = "brightness" := by rw [htype]; decide
  have htype2 : ¬ t.trigger_type = "darkness" := by rw [htype]; decide
  have htype3 : ¬ t.trigger_type = "motion" := by rw [htype]; decide
  unfold Trigger.check_trigger
  rw [hroi]
  dsimp only
  rw [if_neg htype1, if_neg htype2, if_neg htype3, if_pos htype, hfirst]

/-- Any run of difference-mode checks keeps an in-shape stored
baseline, the trigger type and the ROI unchanged. -/
theorem runChecks_diff_keep (frames : List Frame) (t : Trigger) (x y w h : ℕ) (b : List ℕ)
    (htype : t.trigger_type = "difference") (hroi : t.roi_coords = some (x, y, w, h))
    (hfirst : t.first_roi = some b) (hlen : b.length = h * w) :
    (runChecks t frames).first_roi = some b ∧
    (runChecks t frames).trigger_type = "difference" ∧
    (runChecks t frames).roi_coords = some (x, y, w, h) ∧
    (runChecks t frames).threshold = t.threshold := by
  induction frames generalizing t with
  | nil => exact ⟨hfirst, htype, hroi, rfl⟩
  | cons f rest ih =>
    have hstep := diff_check_some t f x y w h b htype hroi hfirst hlen
    have := ih { t with detected_value := meanAbsDiff (extractROI f x y w h) b }
      htype hroi hfirst
    simpa [runChecks, hstep] using this

/-- C3: for every difference-mode Trigger the baseline reference
sample is captured exactly once — on the first valid call, or on the
first call after an explicit reset — and is never updated by any
subsequent frame until an explicit reset; consequently, for a trigger
with an unchanged region, a region sample equal to the captured
baseline yields detected value 0 any number of frames later,
regardless of intermediate frames. -/
theorem C3_difference_baseline :
    (∀ (t : Trigger) (frame : Frame) (x y w h : ℕ),
      t.trigger_type = "difference" → t.roi_coords = some (x, y, w, h) →
      t.first_roi = none →
      t.check_trigger frame =
        ({ t with
            first_roi := some (extractROI frame x y w h)
            detected_value := 0 }, .bool false)) ∧
    (∀ (t : Trigger) (frame : Frame) (x y w h : ℕ) (b : List ℕ),
      t.trigger_type = "difference" → t.roi_coords = some (x, y, w, h) →
      t.first_roi = some b → b.length = h * w →
      (t.check_trigger frame).1.first_roi = some b) ∧
    (∀ (ts : List Trigger) (t1 : Trigger), t1 ∈ reset_first_frame ts →
      t1.trigger_type = "difference" → t1.first_roi = none) ∧
    (∀ (t : Trigger) (f0 f : Frame) (mid : List Frame) (x y w h : ℕ),
      t.trigger_type = "difference" → t.roi_coords = some (x, y, w, h) →
      t.first_roi = none →
      extractROI f x y w h = extractROI f0 x y w h →
      (runChecks t (f0 :: mid)).first_roi = some (extractROI f0 x y w h) ∧
      ((runChecks t (f0 :: mid)).check_trigger f).1.detected_value = 0) := by
  refine ⟨?_, ?_, ?_, ?_⟩
  · intro t frame x y w h htype hroi hfirst
    exact diff_check_none t frame x y w h htype hroi hfirst
  · intro t frame x y w h b htype hroi hfirst hlen
    rw [diff_check_some t frame x y w h b htype hroi hfirst hlen]
    exact hfirst
  · intro ts t1 hmem htype
    unfold reset_first_frame at hmem
    obtain ⟨t0, hmem0, heq⟩ := List.mem_map.mp hmem
    by_cases hc : t0.trigger_type = "difference" ∨ t0.trigger_type = "difference range"
    · rw [if_pos hc] at heq
      rw [← heq]
    · rw [if_neg hc] at heq
      rw [← heq] at htype
      exact absurd (Or.inl htype) hc
  · intro t f0 f mid x y w h htype hroi hfirst hsame
    have hcap := diff_check_none t f0 x y w h htype hroi hfirst
    have hrun := runChecks_diff_keep mid
      ({ t with
          first_roi := some (extractROI f0 x y w h)
          detected_value := 0 }) x y w h (extractROI f0 x y w h)
      htype hroi rfl (extractROI_length f0 x y w h)
    have hrun1 : runChecks t (f0 :: mid) =
        runChecks ({ t with
          first_roi := some (extractROI f0 x y w h)
          detected_value := 0 }) mid := by
      simp [runChecks, hcap]
    refine ⟨by rw [hrun1]; exact hrun.1, ?_⟩
    rw [hrun1]
    rw [diff_check_some _ f x y w h (extractROI f0 x y w h) hrun.2.1
      hrun.2.2.1 hrun.1 (extractROI_length f0 x y w h)]
    rw [hsame, meanAbsDiff_self]

/-- C3 witness: the fresh difference trigger captures the constant
frame 7 sample; after an intermediate different frame (intensity 9), a
frame identical to the baseline yields detected value 0. -/
theorem C3_difference_baseline_witness :
    diffTrigger.trigger_type = "difference" ∧
    diffTrigger.roi_coords = some (0, 0, 5, 5) ∧
    diffTrigger.first_roi = none ∧
    extractROI (constFrame 7) 0 0 5 5 = extractROI (constFrame 7) 0 0 5 5 ∧
    (runChecks diffTrigger [constFrame 7, constFrame 9]).first_roi =
      some (extractROI (constFrame 7) 0 0 5 5) ∧
    ((runChecks diffTrigger [constFrame 7, constFrame 9]).check_trigger
      (constFrame 7)).1.detected_value = 0 := by
  have h := C3_difference_baseline.2.2.2 diffTrigger (constFrame 7) (constFrame 7)
    [constFrame 9] 0 0 5 5 rfl rfl rfl rfl
  exact ⟨rfl, rfl, rfl, rfl, h.1, h.2⟩

set_option maxHeartbeats 1600000 in
/-- Every trigger constructed by `Trigger.init` starts with fresh
runtime state: inactive, no stored samples, no timing state. -/
theorem init_fresh (config : TriggerConfig) (gd : GlobalDefaults) (t : Trigger)
    (h : Trigger.init config gd = .ok t) :
    t.active = false ∧ t.last_cc_value = none ∧ t.range_level = 0 ∧ t.roi_coords = none ∧
    t.previous_roi = none ∧ t.first_roi = none ∧ t.detected_value = 0 ∧
    t.became_invalid_time = none ∧ t.last_deactivated_time = none := by
  unfold Trigger.init at h
  obtain ⟨s, hs, hpure⟩ := except_bind_ok h
  have ht := (Except.ok.injEq _ _).mp hpure
  subst ht
  exact ⟨rfl, rfl, rfl, rfl, rfl, rfl, rfl, rfl, rfl⟩

/-- Characterisation of a continuous-mode frame evaluation: a CC
message is emitted exactly when the quantized value differs from the
stored `last_cc_value`, in which case the stored value is updated. -/
theorem processTrigger_continuous (t : Trigger) (time : ℚ) (frame : Frame)
    (htype : t.trigger_type = "range" ∨ t.trigger_type = "difference range") :
    ((processTrigger time frame t).2.1 ≠ [] ↔
      some (t.check_trigger frame).2.toInt ≠ t.last_cc_value) ∧
    (some (t.check_trigger frame).2.toInt ≠ t.last_cc_value →
      (processTrigger time frame t).2.1 =
        [.cc t.device_name (t.midi_config.cc.getD 0) (t.check_trigger frame).2.toInt
          (t.midi_config.channel.getD 0)] ∧
      (processTrigger time frame t).1.last_cc_value =
        some (t.check_trigger frame).2.toInt) ∧
    (some (t.check_trigger frame).2.toInt = t.last_cc_value →
      (processTrigger time frame t).2.1 = [] ∧
      (processTrigger time frame t).1.last_cc_value = t.last_cc_value) ∧
    (processTrigger time frame t).1.first_roi = (t.check_trigger frame).1.first_roi ∧
    (processTrigger time frame t).2.2 = none := by
  obtain ⟨h_active, h_biv, h_ld, h_lcc, h_deb, h_thr, h_type, h_midi, h_dev, h_vel,
    h_thresh, h_roi, h_name⟩ := check_trigger_runtime t frame
  unfold processTrigger continuousStep
  rw [if_pos htype]
  dsimp only
  rw [h_lcc, h_dev, h_midi]
  by_cases hc : some (t.check_trigger frame).2.toInt = t.last_cc_value
  · rw [if_neg (not_not_intro hc)]
    simp [hc, h_lcc]
  · rw [if_pos hc]
    simp [hc]

/-- C9: continuous-mode change detection is edge-triggered on value
change: a frame evaluation of a range / difference-range Trigger
dispatches an output message if and only if the quantized 0-127 value
differs from the previously emitted stored value, updating the stored
value on dispatch and emitting nothing when the value is unchanged. -/
theorem C9_continuous_change (t : Trigger) (time : ℚ) (frame : Frame)
    (htype : t.trigger_type = "range" ∨ t.trigger_type = "difference range") :
    ((processTrigger time frame t).2.1 ≠ [] ↔
      some (t.check_trigger frame).2.toInt ≠ t.last_cc_value) ∧
    (some (t.check_trigger frame).2.toInt ≠ t.last_cc_value →
      (processTrigger time frame t).2.1 =
        [.cc t.device_name (t.midi_config.cc.getD 0) (t.check_trigger frame).2.toInt
          (t.midi_config.channel.getD 0)] ∧
      (processTrigger time frame t).1.last_cc_value =
        some (t.check_trigger frame).2.toInt) ∧
    (some (t.check_trigger frame).2.toInt = t.last_cc_value →
      (processTrigger time frame t).2.1 = [] ∧
      (processTrigger time frame t).1.last_cc_value = t.last_cc_value) ∧
    (processTrigger time frame t).2.2 = none := by
  have h := processTrigger_continuous t time frame htype
  exact ⟨h.1, h.2.1, h.2.2.1, h.2.2.2.2⟩

/-- C9 witness: the concrete range trigger with no previously emitted
value, evaluated on the constant frame of intensity 125, emits CC
value 64 and stores it; re-evaluated from the stored state on the same
frame, it emits nothing. -/
theorem C9_continuous_change_witness :
    rangeTrigger.trigger_type = "range" ∧
    some (rangeTrigger.check_trigger (constFrame 125)).2.toInt ≠ rangeTrigger.last_cc_value ∧
    (processTrigger 0 (constFrame 125) rangeTrigger).2.1 =
      [.cc rangeTrigger.device_name (rangeTrigger.midi_config.cc.getD 0)
        (rangeTrigger.check_trigger (constFrame 125)).2.toInt
        (rangeTrigger.midi_config.channel.getD 0)] ∧
    some ({ rangeTrigger with last_cc_value := some 64 }.check_trigger
      (constFrame 125)).2.toInt = some 64 ∧
    (processTrigger 0 (constFrame 125) { rangeTrigger with last_cc_value := some 64 }).2.1
      = [] := by
  have h1 := (C9_continuous_change rangeTrigger 0 (constFrame 125) (Or.inl rfl)).2.1
    (by with_unfolding_all decide)
  have h2 := (C9_continuous_change { rangeTrigger with last_cc_value := some 64 } 0
    (constFrame 125) (Or.inl rfl)).2.2.1 (by with_unfolding_all decide)
  exact ⟨rfl, by with_unfolding_all decide, h1.1, by with_unfolding_all decide, h2.1⟩

/-- A difference-range check with no stored baseline captures the
current sample and reports value 0. -/
theorem diffrange_check_none (t : Trigger) (frame : Frame) (x y w h : ℕ)
    (htype : t.trigger_type = "difference range") (hroi : t.roi_coords = some (x, y, w, h))
    (hfirst : t.first_roi = none) :
    t.check_trigger frame =
      ({ t with
          first_roi := some (extractROI frame x y w h)
          range_level := 0 }, .value 0) := by
  have htype1 : ¬ t.trigger_type = "brightness" := by rw [htype]; decide
  have htype2 : ¬ t.trigger_type = "darkness" := by rw [htype]; decide
  have htype3 : ¬ t.trigger_type = "motion" := by rw [htype]; decide
  have htype4 : ¬ t.trigger_type = "difference" := by rw [htype]; decide
  have htype5 : ¬ t.trigger_type = "range" := by rw [htype]; decide
  unfold Trigger.check_trigger
  rw [hroi]
  dsimp only
  rw [if_neg htype1, if_neg htype2, if_neg htype3, if_neg htype4, if_neg htype5,
    if_pos htype, hfirst]

/-- C10 (implicit): the very first frame evaluation of a continuous
Trigger after construction always dispatches, because `__init__`
stores `last_cc_value = None`, which differs from every integer
value; in particular a difference-range Trigger emits value 0 on the
same first frame in which it captures its baseline. -/
theorem C10_first_frame_dispatch :
    (∀ (config : TriggerConfig) (gd : GlobalDefaults) (t : Trigger),
      Trigger.init config gd = .ok t →
      t.last_cc_value = none ∧ t.first_roi = none ∧ t.previous_roi = none) ∧
    (∀ (t : Trigger) (time : ℚ) (frame : Frame),
      (t.trigger_type = "range" ∨ t.trigger_type = "difference range") →
      t.last_cc_value = none →
      (processTrigger time frame t).2.1 =
        [.cc t.device_name (t.midi_config.cc.getD 0) (t.check_trigger frame).2.toInt
          (t.midi_config.channel.getD 0)]) ∧
    (∀ (t : Trigger) (time : ℚ) (frame : Frame) (x y w h : ℕ),
      t.trigger_type = "difference range" → t.last_cc_value = none →
      t.first_roi = none → t.roi_coords = some (x, y, w, h) →
      (processTrigger time frame t).2.1 =
        [.cc t.device_name (t.midi_config.cc.getD 0) 0 (t.midi_config.channel.getD 0)] ∧
      (processTrigger time frame t).1.first_roi = some (extractROI frame x y w h) ∧
      (processTrigger time frame t).1.last_cc_value = some 0 ∧
      (processTrigger time frame t).2.2 = none) := by
  refine ⟨?_, ?_, ?_⟩
  · intro config gd t h
    have hf := init_fresh config gd t h
    exact ⟨hf.2.1, hf.2.2.2.2.2.1, hf.2.2.2.2.1⟩
  · intro t time frame htype hnone
    have h := (processTrigger_continuous t time frame htype).2.1
      (by rw [hnone]; exact fun hc => Option.noConfusion hc)
    exact h.1
  · intro t time frame x y w h htype hnone hfirst hroi
    have hchk := diffrange_check_none t frame x y w h htype hroi hfirst
    have hcont := processTrigger_continuous t time frame (Or.inr htype)
    have hval : (t.check_trigger frame).2.toInt = 0 := by
      rw [hchk]
      rfl
    have hne : some (t.check_trigger frame).2.toInt ≠ t.last_cc_value := by
      rw [hnone, hval]
      exact fun hc => Option.noConfusion hc
    have hemit := hcont.2.1 hne
    rw [hval] at hemit
    refine ⟨hemit.1, ?_, hemit.2, hcont.2.2.2.2⟩
    rw [hcont.2.2.2.1, hchk]

/-- C10 witness: the concrete difference-range trigger (no baseline,
no previously emitted value) on its first frame emits CC value 0,
captures the baseline and stores 0 as the last emitted value. -/
theorem C10_first_frame_dispatch_witness :
    diffRangeTrigger.trigger_type = "difference range" ∧
    diffRangeTrigger.last_cc_value = none ∧
    diffRangeTrigger.first_roi = none ∧
    diffRangeTrigger.roi_coords = some (0, 0, 5, 5) ∧
    (processTrigger 0 (constFrame 7) diffRangeTrigger).2.1 =
      [.cc diffRangeTrigger.device_name (diffRangeTrigger.midi_config.cc.getD 0) 0
        (diffRangeTrigger.midi_config.channel.getD 0)] ∧
    (processTrigger 0 (constFrame 7) diffRangeTrigger).1.first_roi =
      some (extractROI (constFrame 7) 0 0 5 5) ∧
    (processTrigger 0 (constFrame 7) diffRangeTrigger).1.last_cc_value = some 0 := by
  have h := C10_first_frame_dispatch.2.2 diffRangeTrigger 0 (constFrame 7) 0 0 5 5
    rfl rfl rfl rfl
  exact ⟨rfl, rfl, rfl, rfl, h.1, h.2.1, h.2.2.1⟩

/-- What `_load_config` does for a well-formed file shape (a string
source, a positive scale and a triggers list): the stored
configuration and modification time are replaced up front, the frame
size is untouched, and the trigger list is replaced exactly when every
trigger of the new file validates - otherwise the old list stays and
the validation error escapes. -/
theorem loadConfig_result (fs : String → Bool) (file : ConfigFile) (m : ℚ) (s : AppState)
    (src : String) (tcs : List TriggerConfig)
    (hsrc : file.source = some src) (hscale : 0 < file.scale.getD 1)
    (htr : file.triggers = some tcs) :
    (loadConfig fs file m s).1.config = some file ∧
    (loadConfig fs file m s).1.config_mtime = some m ∧
    (loadConfig fs file m s).1.frame_height = s.frame_height ∧
    (loadConfig fs file m s).1.frame_width = s.frame_width ∧
    ((loadConfig fs file m s).2 =
      match tcs.mapM (fun tc => Trigger.init tc (globalDefaultsOf file)) with
      | .error e => some e
      | .ok _ => none) ∧
    ((loadConfig fs file m s).1.triggers =
      match tcs.mapM (fun tc => Trigger.init tc (globalDefaultsOf file)) with
      | .error _ => s.triggers
      | .ok ts => ts) := by
  unfold loadConfig
  cases hm : tcs.mapM (fun tc => Trigger.init tc (globalDefaultsOf file)) with
  | error e =>
    have hm2 : List.mapM.loop (fun tc => Trigger.init tc (globalDefaultsOf file)) tcs [] =
        .error e := hm
    by_cases h1 : src.toLower = "camera" <;> by_cases h2 : fs src <;>
      simp [hsrc, htr, h1, h2, not_le.mpr hscale, hm, hm2]
  | ok ts =>
    have hm2 : List.mapM.loop (fun tc => Trigger.init tc (globalDefaultsOf file)) tcs [] =
        .ok ts := hm
    by_cases h1 : src.toLower = "camera" <;> by_cases h2 : fs src <;>
      simp [hsrc, htr, h1, h2, not_le.mpr hscale, hm, hm2]

/-- C1 counterexample: reloading `appState0` with `badFile` (threshold
999). The validation error is NOT caught inside the reload (it
escapes), and the stored configuration has already been replaced by
the new file - refuting both the suppression and the all-or-nothing
phrasing of the claim. -/
theorem C1_counterexample :
    (reloadIfChanged noFS badFile (some 2) appState0).2.isSome = true ∧
    (reloadIfChanged noFS badFile (some 2) appState0).1.config ≠ appState0.config := by
  with_unfolding_all decide

/-- C1 amended: a validation failure while rebuilding the trigger list
during a reload leaves the Trigger list (and hence every Trigger's
state) unchanged, but the error is not caught at the reload boundary -
it escapes the reload - and the stored configuration and modification
time have already been replaced by the new file's values. -/
theorem C1_amended (fs : String → Bool) (file : ConfigFile) (m m0 : ℚ) (s : AppState)
    (src : String) (tcs : List TriggerConfig) (e : String)
    (hmt : s.config_mtime = some m0) (hlt : m0 < m)
    (hsrc : file.source = some src) (hscale : 0 < file.scale.getD 1)
    (htr : file.triggers = some tcs)
    (hfail : tcs.mapM (fun tc => Trigger.init tc (globalDefaultsOf file)) = .error e) :
    (reloadIfChanged fs file (some m) s).2 = some e ∧
    (reloadIfChanged fs file (some m) s).1.triggers = s.triggers ∧
    (reloadIfChanged fs file (some m) s).1.config = some file ∧
    (reloadIfChanged fs file (some m) s).1.config_mtime = some m := by
  have hload := loadConfig_result fs file m s src tcs hsrc hscale htr
  rw [hfail] at hload
  have hguard : ¬ (s.config_mtime.isSome ∧ m ≤ s.config_mtime.getD 0) := by
    rw [hmt]
    exact fun hc => absurd hc.2 (not_le.mpr hlt)
  dsimp only at hload
  unfold reloadIfChanged
  dsimp only
  rw [if_neg hguard]
  try dsimp only
  rw [hload.2.2.2.2.1]
  exact ⟨rfl, hload.2.2.2.2.2, hload.1, hload.2.1⟩

/-- C1 amended witness: the concrete bad reload, via the amended
theorem at the concrete input. -/
theorem C1_amended_witness :
    appState0.config_mtime = some 1 ∧ (1 : ℚ) < 2 ∧
    badFile.source = some "camera" ∧ 0 < badFile.scale.getD 1 ∧
    (reloadIfChanged noFS badFile (some 2) appState0).2 =
      some "Threshold must be between 0 and 255 for trigger Door" ∧
    (reloadIfChanged noFS badFile (some 2) appState0).1.triggers = appState0.triggers ∧
    (reloadIfChanged noFS badFile (some 2) appState0).1.config = some badFile := by
  have h := C1_amended noFS badFile 2 1 appState0 "camera"
    [{ doorConfig with threshold := some 999 }]
    "Threshold must be between 0 and 255 for trigger Door"
    rfl (by norm_num) rfl (by with_unfolding_all decide) rfl (by with_unfolding_all rfl)
  exact ⟨rfl, by norm_num, rfl, by with_unfolding_all decide, h.1, h.2.1, h.2.2.1⟩

/-- `setup_roi` only sets the pixel bounds; every other attribute of
the trigger survives. -/
theorem setup_roi_preserves (t : Trigger) (fh fw : ℕ) (t1 : Trigger)
    (h : t.setup_roi fh fw = .ok t1) :
    t1.name = t.name ∧ t1.active = t.active ∧
    t1.became_invalid_time = t.became_invalid_time ∧
    t1.last_deactivated_time = t.last_deactivated_time ∧
    t1.previous_roi = t.previous_roi ∧ t1.first_roi = t.first_roi ∧
    t1.last_cc_value = t.last_cc_value := by
  unfold Trigger.setup_roi at h
  dsimp only at h
  split at h
  · exact Except.noConfusion h
  · split at h
    · exact Except.noConfusion h
    · have ht := (Except.ok.injEq _ _).mp h
      subst ht
      exact ⟨rfl, rfl, rfl, rfl, rfl, rfl, rfl⟩

/-- The ROI-setup loop never changes the number of triggers, even when
it fails midway. -/
theorem setupAll_length (fh fw : ℕ) (ts : List Trigger) :
    (setupAll fh fw ts).1.length = ts.length := by
  induction ts with
  | nil => rfl
  | cons t rest ih =>
    cases h : t.setup_roi fh fw with
    | error e => simp [setupAll, h]
    | ok t1 => simp [setupAll, h, ih]

/-- Elementwise, the ROI-setup loop output keeps every non-ROI
attribute of the corresponding input trigger, whether or not the loop
failed midway. -/
theorem setupAll_fields (fh fw : ℕ) (ts : List Trigger) (j : ℕ) (tj : Trigger)
    (h : (setupAll fh fw ts).1[j]? = some tj) :
    ∃ t0, ts[j]? = some t0 ∧ tj.name = t0.name ∧ tj.active = t0.active ∧
      tj.became_invalid_time = t0.became_invalid_time ∧
      tj.last_deactivated_time = t0.last_deactivated_time ∧
      tj.previous_roi = t0.previous_roi ∧ tj.first_roi = t0.first_roi ∧
      tj.last_cc_value = t0.last_cc_value := by
  induction ts generalizing j with
  | nil => simp [setupAll] at h
  | cons t rest ih =>
    cases hs : t.setup_roi fh fw with
    | error e =>
      rw [show setupAll fh fw (t :: rest) = (t :: rest, some e) by simp [setupAll, hs]] at h
      exact ⟨tj, h, rfl, rfl, rfl, rfl, rfl, rfl, rfl⟩
    | ok t1 =>
      rw [show (setupAll fh fw (t :: rest)).1 = t1 :: (setupAll fh fw rest).1 by
        simp [setupAll, hs]] at h
      cases j with
      | zero =>
        have ht : t1 = tj := by simpa using h
        subst ht
        have hp := setup_roi_preserves t fh fw t1 hs
        exact ⟨t, by simp, hp.1, hp.2.1, hp.2.2.1, hp.2.2.2.1, hp.2.2.2.2.1,
          hp.2.2.2.2.2.1, hp.2.2.2.2.2.2⟩
      | succ n =>
        obtain ⟨t0, h0, hrest⟩ := ih n (by simpa using h)
        exact ⟨t0, by simpa using h0, hrest⟩

/-- Elementwise description of the timing-state restoration step. -/
theorem restoreTiming_get (st : List (String × TimingState)) (ts : List Trigger) (j : ℕ) :
    (restoreTiming st ts)[j]? = (ts[j]?).map (fun t =>
      match lookupLast st t.name with
      | some s => { t with
          became_invalid_time := s.became_invalid_time
          last_deactivated_time := s.last_deactivated_time
          active := s.active }
      | none => t) := by
  simp [restoreTiming]

/-- Every trigger of a successfully rebuilt list comes from the
validation of some entry of the new configuration. -/
theorem mapM_init_mem (gd : GlobalDefaults) (tcs : List TriggerConfig) (ts : List Trigger)
    (h : tcs.mapM (fun tc => Trigger.init tc gd) = .ok ts) :
    ∀ t ∈ ts, ∃ tc, Trigger.init tc gd = .ok t := by
  induction tcs generalizing ts with
  | nil =>
    rw [List.mapM_nil] at h
    have hnil : ts = [] := (Except.ok.injEq _ _).mp h.symm
    subst hnil
    intro t ht
    exact absurd ht (List.not_mem_nil t)
  | cons tc rest ih =>
    rw [List.mapM_cons] at h
    obtain ⟨t1, h1, h2⟩ := except_bind_ok h
    obtain ⟨ts1, h3, h4⟩ := except_bind_ok h2
    have hts : t1 :: ts1 = ts := (Except.ok.injEq _ _).mp h4
    subst hts
    intro t ht
    rcases List.mem_cons.mp ht with ht1 | htr
    · subst ht1
      exact ⟨tc, h1⟩
    · exact ih ts1 h3 t htr

/-- C2 counterexample: a successful reload of `appState0` with the
unchanged `doorFile`. The Door trigger's stored baseline sample
(`first_roi = some [7]`) is NOT carried forward - the rebuilt Door
trigger has no reference sample - refuting the claim that the
motion/difference reference samples are part of the carried state. -/
theorem C2_counterexample :
    (reloadIfChanged noFS doorFile (some 2) appState0).2 = none ∧
    appState0.triggers.map (fun t => t.name) = ["Door"] ∧
    appState0.triggers.map (fun t => t.first_roi) = [some [7]] ∧
    (reloadIfChanged noFS doorFile (some 2) appState0).1.triggers.map (fun t => t.name) =
      ["Door"] ∧
    (reloadIfChanged noFS doorFile (some 2) appState0).1.triggers.map (fun t => t.first_roi) =
      [none] := by
  with_unfolding_all decide

/-- C2 amended: on a successful reload, each rebuilt Trigger matching
an old Trigger by name gets the old `active`, `became_invalid_time`
and `last_deactivated_time` restored, but its reference samples
(`previous_roi`, `first_roi`) and `last_cc_value` are always reset to
the fresh-construction state; a Trigger with no name match in the new
configuration is discarded, and a newly named Trigger starts inactive
with no reference samples and no timing state. -/
theorem C2_amended (fs : String → Bool) (file : ConfigFile) (m m0 : ℚ) (s : AppState)
    (src : String) (tcs : List TriggerConfig) (ts0 : List Trigger)
    (hmt : s.config_mtime = some m0) (hlt : m0 < m)
    (hsrc : file.source = some src) (hscale : 0 < file.scale.getD 1)
    (htr : file.triggers = some tcs)
    (hok : tcs.mapM (fun tc => Trigger.init tc (globalDefaultsOf file)) = .ok ts0) :
    (reloadIfChanged fs file (some m) s).1.triggers.length = ts0.length ∧
    (∀ (j : ℕ) (tj t0j : Trigger),
      (reloadIfChanged fs file (some m) s).1.triggers[j]? = some tj →
      ts0[j]? = some t0j →
      tj.name = t0j.name ∧
      tj.previous_roi = none ∧ tj.first_roi = none ∧ tj.last_cc_value = none ∧
      (match lookupLast (snapshotTiming s.triggers) t0j.name with
       | some st => tj.active = st.active ∧
           tj.became_invalid_time = st.became_invalid_time ∧
           tj.last_deactivated_time = st.last_deactivated_time
       | none => tj.active = false ∧ tj.became_invalid_time = none ∧
           tj.last_deactivated_time = none)) := by
  have hload := loadConfig_result fs file m s src tcs hsrc hscale htr
  rw [hok] at hload
  dsimp only at hload
  have hguard : ¬ (s.config_mtime.isSome ∧ m ≤ s.config_mtime.getD 0) := by
    rw [hmt]
    exact fun hc => absurd hc.2 (not_le.mpr hlt)
  have heq : (reloadIfChanged fs file (some m) s).1.triggers =
      (setupAll s.frame_height s.frame_width
        (restoreTiming (snapshotTiming s.triggers) ts0)).1 := by
    unfold reloadIfChanged
    dsimp only
    rw [if_neg hguard]
    try dsimp only
    rw [hload.2.2.2.2.1]
    dsimp only
    rw [hload.2.2.2.2.2, hload.2.2.1, hload.2.2.2.1]
  constructor
  · rw [heq, setupAll_length]
    simp [restoreTiming]
  · intro j tj t0j hj h0j
    rw [heq] at hj
    obtain ⟨tr, hr, hfields⟩ := setupAll_fields s.frame_height s.frame_width _ j tj hj
    rw [restoreTiming_get, h0j] at hr
    simp only [Option.map_some', Option.some.injEq] at hr
    have hmem : t0j ∈ ts0 := List.mem_iff_getElem?.mpr ⟨j, h0j⟩
    obtain ⟨tc, htc⟩ := mapM_init_mem (globalDefaultsOf file) tcs ts0 hok t0j hmem
    have hf := init_fresh tc (globalDefaultsOf file) t0j htc
    cases hlk : lookupLast (snapshotTiming s.triggers) t0j.name with
    | some st =>
      rw [hlk] at hr
      dsimp only at hr
      have htr1 : { t0j with
          became_invalid_time := st.became_invalid_time
          last_deactivated_time := st.last_deactivated_time
          active := st.active } = tr := by simpa using hr
      subst htr1
      dsimp only
      exact ⟨hfields.1, hfields.2.2.2.2.1.trans hf.2.2.2.2.1,
        hfields.2.2.2.2.2.1.trans hf.2.2.2.2.2.1,
        hfields.2.2.2.2.2.2.trans hf.2.1,
        hfields.2.1, hfields.2.2.1, hfields.2.2.2.1⟩
    | none =>
      rw [hlk] at hr
      dsimp only at hr
      have htr1 : t0j = tr := by simpa using hr
      subst htr1
      dsimp only
      exact ⟨hfields.1, hfields.2.2.2.2.1.trans hf.2.2.2.2.1,
        hfields.2.2.2.2.2.1.trans hf.2.2.2.2.2.1,
        hfields.2.2.2.2.2.2.trans hf.2.1,
        hfields.2.1.trans hf.1, hfields.2.2.1.trans hf.2.2.2.2.2.2.2.1,
        hfields.2.2.2.1.trans hf.2.2.2.2.2.2.2.2⟩

/-- C2 amended witness: the concrete successful reload of the Door
configuration, via the amended theorem at index 0. The rebuilt Door
trigger equals the old one except that its baseline sample is gone. -/
theorem C2_amended_witness :
    appState0.config_mtime = some 1 ∧ (1 : ℚ) < 2 ∧
    doorFile.source = some "camera" ∧ (0 : ℚ) < doorFile.scale.getD 1 ∧
    doorFile.triggers = some [doorConfig] ∧
    (reloadIfChanged noFS doorFile (some 2) appState0).1.triggers.length = 1 ∧
    (reloadIfChanged noFS doorFile (some 2) appState0).1.triggers[0]? =
      some { doorTrigger0 with first_roi := none } ∧
    ({ doorTrigger0 with first_roi := none } : Trigger).first_roi = none ∧
    ({ doorTrigger0 with first_roi := none } : Trigger).previous_roi = none ∧
    ({ doorTrigger0 with first_roi := none } : Trigger).active = true ∧
    ({ doorTrigger0 with first_roi := none } : Trigger).became_invalid_time = some 5 ∧
    ({ doorTrigger0 with first_roi := none } : Trigger).last_deactivated_time = some 3 := by
  have h := C2_amended noFS doorFile 2 1 appState0 "camera" [doorConfig]
    [{ doorTrigger0 with
        active := false
        roi_coords := none
        first_roi := none
        became_invalid_time := none
        last_deactivated_time := none }]
    rfl (by norm_num) rfl (by with_unfolding_all decide) rfl (by with_unfolding_all rfl)
  have h0 : (reloadIfChanged noFS doorFile (some 2) appState0).1.triggers[0]? =
      some { doorTrigger0 with first_roi := none } := by with_unfolding_all rfl
  have hj := h.2 0 { doorTrigger0 with first_roi := none }
    { doorTrigger0 with
        active := false
        roi_coords := none
        first_roi := none
        became_invalid_time := none
        last_deactivated_time := none } h0 rfl
  have hlk : lookupLast (snapshotTiming appState0.triggers)
      ({ doorTrigger0 with
          active := false
          roi_coords := none
          first_roi := none
          became_invalid_time := none
          last_deactivated_time := none } : Trigger).name =
      some { became_invalid_time := some 5, last_deactivated_time := some 3, active := true } := by
    with_unfolding_all rfl
  rw [hlk] at hj
  exact ⟨rfl, by norm_num, rfl, by with_unfolding_all decide, rfl, h.1, h0,
    hj.2.2.1, hj.2.1, hj.2.2.2.2.1, hj.2.2.2.2.2.1, hj.2.2.2.2.2.2⟩

end VMT
